import Mathlib

/-!
Shallow embedding of the Telenet API client
(`custom_components/telenet/client.py` and `custom_components/telenet/models.py`)
in Lean 4, together with theorems settling the frozen claims about it.

Modelling conventions:
* JSON values are the inductive `Json`; Python `None` is `Json.null`.
* Python dicts are insertion-ordered association lists; `dict.update` / `|`
  keep the position of existing keys and append new ones (`listUpdate`).
* The HTTP transport is a transcript: a list of `Response` values consumed
  one per outgoing call, in order.  The client is a state-and-error monad
  `M` over `ClientState`; Python exceptions are `Except.error` values of
  type `PyErr` (`TelenetServiceException`, `BadCredentialsException`,
  `AttributeError`, `TypeError`, ...).
* Recursion between `request` and `login` is unbounded in the source
  (that fact is itself the subject of claim C1), so the embedding carries
  an explicit `fuel` argument; `PyErr.outOfFuel` marks exhaustion and is
  never confused with a genuine outcome of the code.
* `const.py`, `utils.py` and `exceptions.py` are imported by `client.py`
  but are not part of the source tree given under `src/`; the definitions
  embedding them are marked `Modelled from the spec:` and follow the
  specification's description of those helpers.
* `models.py` declares `TelenetProduct` without the fields
  `product_plan_label`, `product_address`, `product_price` and
  `native_unit_of_measurement` that `client.py` passes to its constructor;
  the embedded record carries the union of both field sets (otherwise no
  registration would be representable at all), while keeping the defaults
  that `models.py` does declare — in particular the `list` default of
  `product_extra_attributes` (`field(default_factory=list)`), which is
  load-bearing for claim C9.
-/

namespace Telenet

/-- JSON-like dynamic values (Python `None` is `null`; numbers are modelled
as exact rationals). -/
inductive Json where
  | null : Json
  | bool : Bool → Json
  | num : Rat → Json
  | str : String → Json
  | arr : List Json → Json
  | obj : List (String × Json) → Json

/-- Association-list lookup (first match wins; Python dicts have unique keys). -/
def listGet {κ α : Type} [BEq κ] : List (κ × α) → κ → Option α
  | [], _ => none
  | (k', v) :: rest, k => if k' == k then some v else listGet rest k

/-- Association-list insertion with Python-dict semantics: an existing key
keeps its position and gets the new value, a new key is appended. -/
def listInsert {κ α : Type} [BEq κ] : List (κ × α) → κ → α → List (κ × α)
  | [], k, v => [(k, v)]
  | (k', v') :: rest, k, v =>
    if k' == k then (k, v) :: rest else (k', v') :: listInsert rest k v

/-- Python `d.update(e)` / `d | e`: fold the right dict into the left one. -/
def listUpdate {κ α : Type} [BEq κ] (d e : List (κ × α)) : List (κ × α) :=
  e.foldl (fun acc kv => listInsert acc kv.1 kv.2) d

/-- Membership of a key in an association list. -/
def listHasKey {κ α : Type} [BEq κ] (d : List (κ × α)) (k : κ) : Bool :=
  (listGet d k).isSome

/-- Python `dict.get(k)` on a JSON object: `Json.null` when the key is
missing, `none`-like failures do not arise (total, objects only). -/
def jget : Json → String → Option Json
  | .obj kvs, k => listGet kvs k
  | _, _ => none

/-- Python `k in j` for a JSON object (`False` on non-objects; the string
case of Python `in` is modelled separately where the source can hit it). -/
def jmem (j : Json) (k : String) : Bool :=
  match j with
  | .obj kvs => listHasKey kvs k
  | _ => false

/-- Python `len` of a JSON container (0 on scalars; the source only takes
lengths of lists/dicts/strings). -/
def jlen : Json → Nat
  | .arr xs => xs.length
  | .obj kvs => kvs.length
  | .str s => s.length
  | _ => 0

/-- Elements of a JSON array (empty on non-arrays). -/
def jitems : Json → List Json
  | .arr xs => xs
  | _ => []

/-- Key/value pairs of a JSON object (empty on non-objects). -/
def jkvs : Json → List (String × Json)
  | .obj kvs => kvs
  | _ => []

/-- The string value of a JSON value when it is a string. -/
def asStr : Json → Option String
  | .str s => some s
  | _ => none

/-- Extract an optional string from an optional JSON value (used for
identifier-like fields that the client uses as dictionary keys). -/
def asStrOpt (j : Option Json) : Option String :=
  j.bind asStr

/-- Python `str()`/f-string rendering of a JSON value (`None`, `True`,
`False`; rationals are rendered with `toString`, a modelling choice that is
only observable inside attribute strings). -/
def pyFmt : Json → String
  | .null => "None"
  | .bool true => "True"
  | .bool false => "False"
  | .num q => if q.den == 1 then toString q.num else toString q
  | .str s => s
  | .arr _ => "[...]"
  | .obj _ => "{...}"

/-- f-string rendering of an optional value (Python `None` prints `None`). -/
def pyOptFmt : Option Json → String
  | none => "None"
  | some j => pyFmt j

/-- f-string rendering of an optional string. -/
def pyOptStr : Option String → String
  | none => "None"
  | some s => s

/-- Substring test on character lists. -/
def listContainsSub (sub : List Char) : List Char → Bool
  | [] => sub.isEmpty
  | c :: cs => sub.isPrefixOf (c :: cs) || listContainsSub sub cs

/-- Python `sub in s` / `s.find(sub) != -1` for strings. -/
def strContains (s sub : String) : Bool :=
  listContainsSub sub.data s.data

/-- Structural split of a character list at a separator character. -/
def splitOnChar (sep : Char) : List Char → List (List Char)
  | [] => [[]]
  | c :: cs =>
    if c = sep then [] :: splitOnChar sep cs
    else
      match splitOnChar sep cs with
      | [] => [[c]]
      | g :: gs => (c :: g) :: gs

/-- Split a string at a single-character separator (structural, so closed
instances reduce inside the kernel). -/
def strSplitChar (s : String) (sep : Char) : List String :=
  (splitOnChar sep s.data).map String.mk

/-- Join strings with a single-character separator. -/
def joinWithChar (sep : Char) : List String → String
  | [] => ""
  | [x] => x
  | x :: xs => x ++ String.mk [sep] ++ joinWithChar sep xs

/-- Accumulating digit parse. -/
def digitsToNatAux : List Char → Nat → Option Nat
  | [], acc => some acc
  | c :: cs, acc =>
    if c.isDigit then digitsToNatAux cs (acc * 10 + (c.toNat - 48)) else none

/-- Digit-string to `Nat` (`none` on empty or non-digit input). -/
def digitsToNat (l : List Char) : Option Nat :=
  match l with
  | [] => none
  | _ => digitsToNatAux l 0

/-- Integer parse with an optional sign (structural). -/
def strToIntAux (l : List Char) : Option Int :=
  match l with
  | '-' :: rest => (digitsToNat rest).map (fun n => -(n : Int))
  | '+' :: rest => (digitsToNat rest).map (fun n => (n : Int))
  | _ => (digitsToNat l).map (fun n => (n : Int))

/-- ASCII lower-casing of one character (structural). -/
def charLower (c : Char) : Char :=
  if 65 ≤ c.toNat ∧ c.toNat ≤ 90 then Char.ofNat (c.toNat + 32) else c

/-- ASCII lower-casing of a string (Python `str.lower()` on the ASCII
identifiers and unit labels the client handles). -/
def lowerStr (s : String) : String :=
  String.mk (s.data.map charLower)

/-- Python `s.split(sep, maxsplit=2)` for the single-character separators
the source uses: at most two splits, the remainder kept intact in the third
part. -/
def pySplitMax2 (s sep : String) : List String :=
  match sep.data with
  | [c] =>
    let parts := strSplitChar s c
    if parts.length ≤ 3 then parts
    else parts.take 2 ++ [joinWithChar c (parts.drop 2)]
  | _ => [s]

/-- Python-level failures: the two exception classes of `exceptions.py`
(modelled from the spec: that file is not under `src/`), the runtime errors
the source can raise, and two modelling-only outcomes for transcript and
fuel exhaustion. -/
inductive PyErr where
  | telenetService : String → PyErr
  | badCredentials : String → PyErr
  | attributeError : String → PyErr
  | typeError : String → PyErr
  | keyError : PyErr
  | nameError : PyErr
  | outOfTranscript : PyErr
  | outOfFuel : PyErr
  deriving DecidableEq

/-- Modelled from the spec: `const.py` is not under `src/`; the spec fixes
the retry budget `CONNECTION_RETRY` as "a fixed small integer (e.g. 3)". -/
def CONNECTION_RETRY : Nat := 3

/-- Modelled from the spec: `utils.py` is not under `src/`;
`format_entity_name` is the "slug/key generation for stable sensor
identifiers" — deterministic, lower-casing, non-alphanumerics become `_`. -/
def format_entity_name (s : String) : String :=
  String.mk (s.data.map fun c =>
    let lc := charLower c
    if lc.isAlphanum then lc else '_')

/-- Modelled from the spec: `str_to_float` from `utils.py` (not under
`src/`), "numeric string parsing with locale-safe decimal handling";
numbers pass through, decimal strings (with `.` or `,`) parse exactly,
anything else parses to 0. -/
def str_to_float (j : Json) : Rat :=
  match j with
  | .num q => q
  | .bool true => 1
  | .bool false => 0
  | .str s =>
    let t := s.data.map fun c => if c = ',' then '.' else c
    match splitOnChar '.' t with
    | [a] => (((strToIntAux a).getD 0 : Int) : Rat)
    | [a, b] =>
      let ip : Rat := (((strToIntAux a).getD 0 : Int) : Rat)
      let fp : Rat := (((digitsToNat b).getD 0 : Nat) : Rat)
      let den : Rat := ((10 : Nat) ^ b.length : Nat)
      if ip < 0 then ip - fp / den else ip + fp / den
    | _ => 0
  | _ => 0

/-- Modelled from the spec: `float_to_timestring` from `utils.py` (not under
`src/`), "duration formatting from raw minutes/seconds-style counters";
deterministic per unit type, minutes render as `Hh Mm`. -/
def float_to_timestring (units unitType : Json) : String :=
  let m : Int := (str_to_float units).floor
  let t := lowerStr (pyFmt unitType)
  if t == "min" || t == "minutes" then
    toString (Int.ediv m 60) ++ "h " ++ toString (Int.emod m 60) ++ "m"
  else
    toString m ++ " " ++ pyFmt unitType

/-- Object-key step of the minimal JSON-path engine. -/
def jpathKey (j : Json) (k : String) : Json :=
  (jget j k).getD .null

/-- Array-index step of the minimal JSON-path engine. -/
def jpathIdx (j : Json) (i : Nat) : Json :=
  match j with
  | .arr xs => (xs.get? i).getD .null
  | _ => .null

/-- Modelled from the spec: `get_json_dict_path` from `utils.py` (not under
`src/`), which "reads a nested value out of an untyped JSON-like tree given
a dotted/indexed path string; returns null on any missing segment".  Paths
look like `$.a.b[0].c`. -/
def jpathSeg (acc : Json) (seg : List Char) : Json :=
  match splitOnChar '[' seg with
  | [k] => jpathKey acc (String.mk k)
  | [k, idx] =>
    let base := if k.isEmpty then acc else jpathKey acc (String.mk k)
    jpathIdx base ((digitsToNat idx.dropLast).getD 0)
  | _ => .null

/-- Modelled from the spec (continued): the path walk itself. -/
def get_json_dict_path (j : Json) (path : String) : Json :=
  let p :=
    match path.data with
    | '$' :: '.' :: rest => rest
    | l => l
  (splitOnChar '.' p).foldl jpathSeg j

/-- Modelled from the spec: `get_localized` from `utils.py` (not under
`src/`), "localized-string selection from a list of per-language entries" —
the entry whose `locale` matches the configured language, else the first
entry; `none` models Python `None` for non-lists. -/
def get_localized (language : String) (content : Json) : Option Json :=
  match content with
  | .arr xs =>
    match xs.find? (fun e =>
        match jget e "locale" with
        | some (.str l) => l == language
        | _ => false) with
    | some e => some e
    | none => xs.head?
  | _ => none

/-- Modelled from the spec: `clean_ipv6` from `utils.py` (not under `src/`),
"IPv6 string normalization" on the network-topology record.  No claim
depends on the exact string normalization, so it is embedded as the
identity on JSON trees; applied to the soft-failure sentinel (Python
`False`) it raises, as the Python helper walking `False` would. -/
def clean_ipv6 : Option Json → Except PyErr Json
  | none => .error (.typeError "bool is not iterable")
  | some j => .ok j

/-- Python `round(x, n)` on exact rationals (half-up; the exact tie mode is
not claim-relevant). -/
def pyRound (q : Rat) (n : Nat) : Rat :=
  let p : Rat := ((10 : Nat) ^ n : Nat)
  ((Rat.floor (q * p + 1/2) : Int) : Rat) / p

/-- Python `int(x)` for JSON values (truncation toward zero for numbers,
exact parse for integer strings). -/
def pyInt (j : Json) : Except PyErr Int :=
  match j with
  | .num q => .ok (Int.tdiv q.num (q.den : Int))
  | .str s =>
    match s.toInt? with
    | some i => .ok i
    | none => .error (.typeError "invalid literal for int")
  | .bool b => .ok (if b then 1 else 0)
  | _ => .error (.typeError "int argument must be a number")

/-- Civil-calendar day number (days since 1970-01-01) of a Gregorian date;
used by the modelled `datetime` parsing. -/
def daysFromCivil (y m d : Int) : Int :=
  let y2 := y - (if m ≤ 2 then 1 else 0)
  let era := Int.ediv y2 400
  let yoe := y2 - era * 400
  let mp := Int.emod (m + 9) 12
  let doy := Int.ediv (153 * mp + 2) 5 + d - 1
  let doe := yoe * 365 + Int.ediv yoe 4 - Int.ediv yoe 100 + doy
  era * 146097 + doe - 719468

/-- Modelled from the spec: `datetime.strptime` with the formats of
`const.py` (not under `src/`): `YYYY-MM-DD[THH:MM:SS...]` becomes seconds
since 1970-01-01; unparsable input becomes 0.  Only differences of parsed
values are ever used by the client. -/
def parseDateTime (j : Json) : Int :=
  match j with
  | .str s =>
    let dt := splitOnChar 'T' s.data
    let dpart := dt.headD []
    let tpart := (dt.get? 1).getD ['0', ':', '0', ':', '0']
    match splitOnChar '-' dpart with
    | [y, m, d] =>
      let days := daysFromCivil ((strToIntAux y).getD 0) ((strToIntAux m).getD 0)
        ((strToIntAux d).getD 0)
      let hms := splitOnChar ':'
        ((splitOnChar '+' ((splitOnChar '.' tpart).headD [])).headD [])
      let h := (strToIntAux (hms.headD [])).getD 0
      let mi := (strToIntAux ((hms.get? 1).getD [])).getD 0
      let sec := (strToIntAux ((hms.get? 2).getD [])).getD 0
      days * 86400 + h * 3600 + mi * 60 + sec
    | _ => 0
  | _ => 0

/-- Python `timedelta.days`: floor division of the second count by 86400. -/
def timedeltaDays (seconds : Int) : Int :=
  Int.fdiv seconds 86400

/-- An HTTP response as the dispatcher sees it: status code, raw body text,
its JSON parse (the embedding keeps both, assumed consistent), the final URL
after redirects, and the `TOKEN-XSRF` cookie set by the response (if any). -/
structure Response where
  status : Nat
  text : String
  json : Json
  url : String
  cookie : Option String

/-- The runtime type of `product_extra_attributes`: `models.py` (line 34)
declares the field with `field(default_factory=list)` — a Python `list` —
while every explicit value `client.py` passes for it is a dict. -/
inductive PyAttrs where
  | pylist : List Json → PyAttrs
  | pydict : List (String × Json) → PyAttrs

/-- Python `attrs |= extra` (`client.py` line 1001): dict update, or
`TypeError` when the left side is the list default from `models.py`. -/
def pyIor (a : PyAttrs) (extra : List (String × Json)) : Except PyErr PyAttrs :=
  match a with
  | .pydict m => .ok (.pydict (listUpdate m extra))
  | .pylist _ => .error (.typeError "unsupported operand types for ior: list and dict")

/-- `TelenetProduct` (`models.py` lines 18-36) extended with the four fields
`client.py` passes to the constructor but `models.py` does not declare
(`product_plan_label`, `product_address`, `product_price`,
`native_unit_of_measurement`); defaults follow `models.py` where declared. -/
structure TelenetProduct where
  product_name : Json := .str ""
  product_key : String := ""
  product_description_key : Option String := some ""
  product_suffix : String := ""
  product_state : Json := .str "Inactive"
  product_identifier : Option String := some ""
  product_type : Option String := some ""
  product_description : String := ""
  product_specurl : Option String := none
  product_info : Json := .arr []
  product_plan_identifier : Option String := some ""
  product_subscription_info : Json := .arr []
  product_extra_attributes : PyAttrs := .pylist []
  product_extra_sensor : Bool := false
  product_ignore_extra_sensor : Bool := false
  product_plan_label : Json := .null
  product_address : Option Json := none
  product_price : Option Json := none
  native_unit_of_measurement : Json := .null

/-- The client's mutable state (`TelenetClient.__init__`, lines 41-64) plus
the modelled transport transcript and wall clock. -/
structure ClientState where
  transcript : List Response
  headerXsrf : Option String
  cookieXsrf : Option String
  all_products : List (Option String × TelenetProduct)
  product_types : List (Option String)
  user_details : Json
  plan_products : List (Option String × Json)
  addresses : List (String × Json)
  request_error : Json
  total_cost : Rat
  username : String
  password : String
  language : String
  now : Int

/-- The client monad: state over `ClientState` with Python exceptions. -/
def M (α : Type) : Type :=
  ClientState → Except PyErr (α × ClientState)

/-- Return for the client monad. -/
def pureM {α : Type} (a : α) : M α := fun st => .ok (a, st)

/-- Sequencing for the client monad (exceptions propagate). -/
def bindM {α β : Type} (x : M α) (f : α → M β) : M β := fun st =>
  match x st with
  | .ok (a, st') => f a st'
  | .error e => .error e

instance : Monad M where
  pure := pureM
  bind := bindM

/-- Raise a Python exception. -/
def throwM {α : Type} (e : PyErr) : M α := fun _ => .error e

/-- Read the client state. -/
def getM : M ClientState := fun st => .ok (st, st)

/-- Replace the client state. -/
def setM (st : ClientState) : M Unit := fun _ => .ok ((), st)

/-- Update the client state. -/
def modifyM (f : ClientState → ClientState) : M Unit := fun st => .ok ((), f st)

/-- Lift an exception-valued computation into the client monad. -/
def liftE {α : Type} (x : Except PyErr α) : M α := fun st =>
  match x with
  | .ok a => .ok (a, st)
  | .error e => .error e

/-- Python `x.get(k)` where `x` must be a dict: `Json.null` models a missing
key's `None`; calling `.get` on `None`/scalars raises `AttributeError`. -/
def pyGet (j : Json) (k : String) : Except PyErr Json :=
  match j with
  | .obj kvs => .ok ((listGet kvs k).getD .null)
  | _ => .error (.attributeError "object has no attribute get")

/-- Python `x.get(k)` with a possibly-`None` key (JSON objects never carry a
non-string key, so a `None` key just misses). -/
def pyGetK (j : Json) (k : Option String) : Except PyErr Json :=
  match k with
  | some s => pyGet j s
  | none =>
    match j with
    | .obj _ => .ok .null
    | _ => .error (.attributeError "object has no attribute get")

/-- Dynamic results of the session layer: a response object, the Python
`False` soft-failure sentinel, or a JSON value (what `login` returns). -/
inductive PyVal where
  | resp : Response → PyVal
  | fal : PyVal
  | js : Json → PyVal

/-- Use a session-layer result as a response object (`False.url`,
`False.status_code` and similar raise `AttributeError` in Python). -/
def asResp (v : PyVal) : M Response :=
  match v with
  | .resp r => pure r
  | _ => throwM (.attributeError "object has no attribute")

/-- The 403 test `response.json().get("code") not in ["OCAPI-ERR-667"]`
(negated): `true` exactly when the error-code field is the known code. -/
def isErr667 (j : Json) : Bool :=
  match jget j "code" with
  | some (.str s) => s == "OCAPI-ERR-667"
  | _ => false

/-- Modelled from the spec: base URLs of `DEFAULT_TELENET_ENVIRONMENT`
(`const.py`, not under `src/`).  The transcript transport never dispatches
on URLs; they only document which call is being made. -/
def ocapiBase : String := "https://api.prd.telenet.be/ocapi"

/-- Modelled from the spec: identity-provider base URL (`const.py`). -/
def openidBase : String := "https://login.prd.telenet.be/openid"

/-- The authorize URL built at `client.py` line 155. -/
def authorizeUrl (state nonce : String) : String :=
  openidBase ++ "/oauth/authorize?client_id=ocapi&response_type=code&claims=\x7b\x22id_token\x22:...\x7d&lang=nl&state=" ++
    state ++ "&nonce=" ++ nonce ++ "&prompt=login"

/-- The credential form POSTed at `client.py` lines 162-171. -/
def loginForm (username password : String) : Json :=
  .obj [("j_username", .str username), ("j_password", .str password),
        ("rememberme", .bool true)]

/-- The mutually recursive entry points of the session layer. -/
inductive Call where
  | req : Option String → String → Option Json → Option Nat → Bool → Bool → Int → Call
  | login : Call
  | loginLoop : List String → Nat → Option Response → Call

/-- One step of the session layer, structurally recursive on `fuel` (the
source recursion is unbounded — the subject of claim C1 — so the embedding
caps recursion depth with `fuel`; `PyErr.outOfFuel` marks the cap).

`Call.req url caller dataBody expected log retrying connection_retry_left`
embeds `TelenetClient.request` (`client.py` 66-123): consume the next
transcript response (GET when `dataBody` is `none`, POST otherwise; the
embedded transport does not distinguish them), then apply the status
handling of lines 88-123 — 404 captures the JSON error body and returns the
`False` sentinel; an unexpected status outside 401/403/500 raises while
budget remains and this is not already a retry; a 403 whose body text
contains `code` either returns the sentinel (code other than OCAPI-ERR-667)
or raises a service exception built from the body's `cause` (code equal to
OCAPI-ERR-667); everything else re-invokes `login()` and re-issues the
request with `retrying=True` and the budget decremented; any accepted
response mirrors the XSRF cookie into the headers and is returned.

`Call.login` embeds `TelenetClient.login` (125-187) and `Call.loginLoop`
its token `while` loop (131-151): probe the user-details endpoint; HTTP 200
returns its JSON at once; a status other than 401/403 raises; otherwise the
body is split on commas (at most twice) into tokens, with a bounded number
of re-fetches.  After the loop: the authorize redirect must land on the
login page (line 161 calls `response.text()`, a `TypeError`, on failure),
the credential POST must not land on an `authentication_error` URL (else
`BadCredentialsException`), and the re-fetched user-details body must
contain `customer_number` (else `BadCredentialsException`); on success the
user-details record is persisted and returned. -/
def dispatch : Nat → Call → M PyVal
  | 0, _ => throwM .outOfFuel
  | fuel + 1, .req url caller dataBody expected log retrying budget => do
    match url with
    | none => throwM (.typeError "Invalid URL None")
    | some _ =>
      let st ← getM
      match st.transcript with
      | [] => throwM .outOfTranscript
      | response :: rest => do
        setM { st with transcript := rest,
                       cookieXsrf := response.cookie <|> st.cookieXsrf }
        match expected with
        | some e =>
          if response.status ≠ e then
            if response.status == 404 then do
              modifyM fun s => { s with request_error := response.json }
              pure PyVal.fal
            else if response.status ≠ 403 && response.status ≠ 401 &&
                response.status ≠ 500 && budget > 0 && !retrying then
              throwM (.telenetService ("[" ++ caller ++ "] Expecting HTTP " ++
                toString e ++ " | Response HTTP " ++ toString response.status ++
                ", Response: " ++ response.text ++ ", Url: " ++ response.url))
            else if response.status == 403 && strContains response.text "code" then
              if !(isErr667 response.json) then do
                modifyM fun s => { s with request_error := response.json }
                pure PyVal.fal
              else
                throwM (.telenetService
                  (pyOptFmt (jget response.json "cause") ++ " for " ++ st.username))
            else do
              _ ← dispatch fuel .login
              let r ← dispatch fuel (.req url caller dataBody expected log true (budget - 1))
              modifyM fun s => { s with headerXsrf := s.cookieXsrf }
              pure r
          else do
            modifyM fun s => { s with headerXsrf := s.cookieXsrf }
            pure (PyVal.resp response)
        | none => do
          modifyM fun s => { s with headerXsrf := s.cookieXsrf }
          pure (PyVal.resp response)
  | fuel + 1, .login => do
    let r ← dispatch fuel (.loginLoop [] 0 none)
    match r with
    | .js j => pure (.js j)
    | .fal => throwM (.attributeError "object has no attribute")
    | .resp response =>
      match pySplitMax2 response.text "," with
      | [state, nonce] => do
        let r2v ← dispatch fuel (.req (some (authorizeUrl state nonce))
          "[TelenetClient|login|authorize]" none none false false (CONNECTION_RETRY : Int))
        let r2 ← asResp r2v
        if r2.status ≠ 200 || !(strContains r2.url "openid/login") then
          throwM (.typeError "str object is not callable")
        else do
          let st ← getM
          let r3v ← dispatch fuel (.req (some (openidBase ++ "/login.do"))
            "[TelenetClient|login|login.do]" (some (loginForm st.username st.password))
            (some 200) false false (CONNECTION_RETRY : Int))
          let r3 ← asResp r3v
          if strContains r3.url "authentication_error" then
            throwM (.badCredentials r3.text)
          else do
            modifyM fun s => { s with headerXsrf := s.cookieXsrf }
            let r4v ← dispatch fuel (.req (some (ocapiBase ++ "/oauth/userdetails"))
              "[TelenetClient|login|user_details]" none (some 200) false false
              (CONNECTION_RETRY : Int))
            let r4 ← asResp r4v
            if !(jmem r4.json "customer_number") then
              throwM (.badCredentials ("HTTP " ++ toString r4.status ++
                " Missing customer number"))
            else do
              modifyM fun s => { s with user_details := r4.json }
              pure (.js r4.json)
      | _ => throwM (.typeError "cannot unpack tokens")
  | fuel + 1, .loginLoop tokens token_fetch_count lastResponse =>
    if tokens.length == 2 then
      match lastResponse with
      | some r => pure (.resp r)
      | none => throwM (.typeError "loop exited before any iteration")
    else do
      let rv ← dispatch fuel (.req (some (ocapiBase ++ "/oauth/userdetails"))
        "[TelenetClient|login]" none none false false (CONNECTION_RETRY : Int))
      let response ← asResp rv
      if response.status == 200 then
        pure (.js response.json)
      else if response.status ≠ 401 && response.status ≠ 403 then
        throwM (.telenetService ("HTTP " ++ toString response.status ++
          " error while authenticating " ++ response.url))
      else
        let toks := pySplitMax2 response.text ","
        if token_fetch_count > CONNECTION_RETRY then
          throwM (.telenetService ("HTTP 401 not returning the tokens for " ++
            response.url))
        else
          dispatch fuel (.loginLoop toks (token_fetch_count + 1) (some response))

/-- `TelenetClient.request` with its Python default arguments
(`log=False`, `retrying=False`, `connection_retry_left=CONNECTION_RETRY`). -/
def request (fuel : Nat) (url : Option String) (caller : String)
    (dataBody : Option Json) (expected : Option Nat) : M PyVal :=
  dispatch fuel (.req url caller dataBody expected false false (CONNECTION_RETRY : Int))

/-- `TelenetClient.login` as a JSON-returning call. -/
def login (fuel : Nat) : M Json := do
  let v ← dispatch fuel .login
  match v with
  | .js j => pure j
  | _ => throwM (.typeError "login returned a non-dict")

/-- The `if response is False: return False / return response.json()` tail
shared by the endpoint helpers (`none` is the `False` sentinel). -/
def jsonOrFalse (v : PyVal) : M (Option Json) :=
  match v with
  | .fal => pure none
  | .resp r => pure (some r.json)
  | .js _ => throwM (.typeError "request returned a non-response")

/-- Python `xs[i]` subscripting (IndexError / non-subscriptable modelled as
`TypeError`-class failures). -/
def pyIndex (j : Json) (i : Nat) : Except PyErr Json :=
  match j with
  | .arr xs =>
    match xs.get? i with
    | some x => .ok x
    | none => .error (.typeError "list index out of range")
  | _ => .error (.typeError "object is not subscriptable")

/-- `TelenetClient.product_details` (client.py 1004-1009). -/
def product_details (fuel : Nat) (url : Option String) : M (Option Json) := do
  let rv ← request fuel url "product_details" none (some 200)
  jsonOrFalse rv

/-- `TelenetClient.plan_info` (client.py 1011-1025): cache the PLAN-type
subscription records keyed by identifier.  The Python function ends in
`return False` on both paths. -/
def plan_info (fuel : Nat) : M Bool := do
  modifyM fun s => { s with plan_products := [] }
  let rv ← request fuel
    (some (ocapiBase ++ "/public/api/product-service/v1/product-subscriptions?producttypes=PLAN"))
    "[TelenetClient|planInfo]" none (some 200)
  match rv with
  | .fal => pure false
  | .resp r => do
    (jitems r.json).forM fun plan =>
      modifyM fun s =>
        { s with plan_products :=
            listInsert s.plan_products (asStrOpt (jget plan "identifier")) plan }
    pure false
  | .js _ => throwM (.typeError "request returned a non-response")

/-- `TelenetClient.bill_cycles` (client.py 1027-1051): fetch the bill-cycle
window; note the unchecked `response.json().get("billCycles")[0]`. -/
def bill_cycles (fuel : Nat) (product_type product_identifier : Option String)
    (count : Nat) : M (Option Json) := do
  let rv ← request fuel
    (some (ocapiBase ++ "/public/api/billing-service/v1/account/products/" ++
      pyOptStr product_identifier ++ "/billcycle-details?producttype=" ++
      pyOptStr product_type ++ "&count=" ++ toString count))
    "[TelenetClient|bill_cycles]" none (some 200)
  match rv with
  | .fal => pure none
  | .resp r => do
    let billCycles ← liftE (pyGet r.json "billCycles")
    let cycle ← liftE (pyIndex billCycles 0)
    let startDate ← liftE (pyGet cycle "startDate")
    let endDate ← liftE (pyGet cycle "endDate")
    if product_type == some "internet" then
      pure (some (.obj [("start_date", startDate), ("end_date", endDate),
                        ("cycles", billCycles)]))
    else
      pure (some (.obj [("start_date", startDate), ("end_date", endDate)]))
  | .js _ => throwM (.typeError "request returned a non-response")

/-- `TelenetClient.product_usage` (client.py 1053-1063). -/
def product_usage (fuel : Nat) (product_type product_identifier : Option String)
    (startDate endDate : Json) : M (Option Json) := do
  let rv ← request fuel
    (some (ocapiBase ++ "/public/api/product-service/v1/products/" ++
      pyOptStr product_type ++ "/" ++ pyOptStr product_identifier ++
      "/usage?fromDate=" ++ pyFmt startDate ++ "&toDate=" ++ pyFmt endDate))
    "[TelenetClient|product_usage]" none (some 200)
  jsonOrFalse rv

/-- `TelenetClient.product_daily_usage` (client.py 1065-1079): expected
status is `None`, non-200 responses yield an empty dict. -/
def product_daily_usage (fuel : Nat) (product_type product_identifier : Option String)
    (bill_cycle from_date to_date : Json) : M (Option Json) := do
  let rv ← request fuel
    (some (ocapiBase ++ "/public/api/product-service/v1/products/" ++
      pyOptStr product_type ++ "/" ++ pyOptStr product_identifier ++
      "/dailyusage?billcycle=" ++ pyFmt bill_cycle ++ "&fromDate=" ++
      pyFmt from_date ++ "&toDate=" ++ pyFmt to_date))
    "[TelenetClient|product_daily_usage]" none none
  match rv with
  | .fal => pure none
  | .resp r => if r.status ≠ 200 then pure (some (.obj [])) else pure (some r.json)
  | .js _ => throwM (.typeError "request returned a non-response")

/-- `TelenetClient.product_subscriptions` (client.py 1081-1098): one query
per discovered product type; on a soft failure the type is skipped, and each
returned record is attached to the registered product with that identifier
(an identifier outside the table raises `KeyError`, as the Python
`self.all_products[...]` subscription does). -/
def product_subscriptions (fuel : Nat) : M Unit := do
  let st0 ← getM
  st0.product_types.forM fun product_type => do
    let rv ← request fuel
      (some (ocapiBase ++ "/public/api/product-service/v1/product-subscriptions?producttypes=" ++
        (pyOptStr product_type).toUpper))
      "[TelenetClient|product_subscriptions]" none (some 200)
    match rv with
    | .fal => pure ()
    | .resp r =>
      (jitems r.json).forM fun product => do
        let key := asStrOpt (jget product "identifier")
        let s ← getM
        match listGet s.all_products key with
        | none => throwM .keyError
        | some p =>
          let p' := { p with product_subscription_info := product }
          setM { s with all_products := listInsert s.all_products key p' }
    | .js _ => throwM (.typeError "request returned a non-response")

/-- `TelenetClient.mobile_usage` (client.py 1100-1110). -/
def mobile_usage (fuel : Nat) (product_identifier : Option String) : M (Option Json) := do
  let rv ← request fuel
    (some (ocapiBase ++ "/public/api/mobile-service/v3/mobilesubscriptions/" ++
      pyOptStr product_identifier ++ "/usages"))
    "[TelenetClient|mobile_usage]" none (some 200)
  jsonOrFalse rv

/-- `TelenetClient.mobile_bundle_usage` (client.py 1112-1130): with a line
identifier the per-line bundle usage is queried, without one the bundle
total. -/
def mobile_bundle_usage (fuel : Nat) (bundle_identifier : Option String)
    (line_identifier : Option String) : M (Option Json) := do
  let rv ←
    match line_identifier with
    | some line =>
      request fuel
        (some (ocapiBase ++ "/public/api/mobile-service/v3/mobilesubscriptions/" ++
          pyOptStr bundle_identifier ++ "/usages?type=bundle&lineIdentifier=" ++ line))
        "[TelenetClient|mobile_bundle_usage line_identifier]" none (some 200)
    | none =>
      request fuel
        (some (ocapiBase ++ "/public/api/mobile-service/v3/mobilesubscriptions/" ++
          pyOptStr bundle_identifier ++ "/usages?type=bundle"))
        "[TelenetClient|mobile_bundle_usage bundle]" none (some 200)
  jsonOrFalse rv

/-- `TelenetClient.modems` (client.py 1132-1142). -/
def modems (fuel : Nat) (product_identifier : Option String) : M (Option Json) := do
  let rv ← request fuel
    (some (ocapiBase ++ "/public/api/resource-service/v1/modems?productIdentifier=" ++
      pyOptStr product_identifier))
    "[TelenetClient|modems]" none (some 200)
  jsonOrFalse rv

/-- `TelenetClient.network_topology` (client.py 1144-1154). -/
def network_topology (fuel : Nat) (mac : Json) : M (Option Json) := do
  let rv ← request fuel
    (some (ocapiBase ++ "/public/api/resource-service/v1/network-topology/" ++
      pyFmt mac ++ "?withClients=true"))
    "[TelenetClient|network_topology]" none (some 200)
  jsonOrFalse rv

/-- `TelenetClient.wireless_settings` (client.py 1156-1166): expected status
is `None`; the sentinel is returned for an HTTP 500. -/
def wireless_settings (fuel : Nat) (mac : Json) (product_identifier : Option String) :
    M (Option Json) := do
  let rv ← request fuel
    (some (ocapiBase ++ "/public/api/resource-service/v1/modems/" ++ pyFmt mac ++
      "/wireless-settings?withmetadata=true&withwirelessservice=true&productidentifier=" ++
      pyOptStr product_identifier))
    "[TelenetClient|wireless_settings]" none none
  match rv with
  | .fal => pure none
  | .resp r => if r.status == 500 then pure none else pure (some r.json)
  | .js _ => throwM (.typeError "request returned a non-response")

/-- `TelenetClient.device_details` (client.py 1168-1178). -/
def device_details (fuel : Nat) (product_type product_identifier : Option String) :
    M (Option Json) := do
  let rv ← request fuel
    (some (ocapiBase ++ "/public/api/product-service/v1/products/" ++
      pyOptStr product_type ++ "/" ++ pyOptStr product_identifier ++ "/devicedetails"))
    "[TelenetClient|device_details]" none (some 200)
  jsonOrFalse rv

/-- The fetch-and-cache tail of `TelenetClient.address` (client.py
1187-1196): a soft failure returns the sentinel without caching, a success
is cached under the address id and returned. -/
def addressFetch (fuel : Nat) (aid : String) : M (Option Json) := do
  let rv ← request fuel
    (some (ocapiBase ++ "/public/api/contact-service/v1/contact/addresses/" ++ aid))
    "[TelenetClient|address]" none (some 200)
  match rv with
  | .fal => pure none
  | .resp r => do
    modifyM fun s => { s with addresses := listInsert s.addresses aid r.json }
    pure (some r.json)
  | .js _ => throwM (.typeError "request returned a non-response")

/-- `TelenetClient.address` (client.py 1180-1196): a `None` or empty address
id yields an empty mapping without any HTTP call; a cached id (with a
non-`None` cached value) is served from the cache without any HTTP call;
otherwise the address is fetched and cached. -/
def address (fuel : Nat) (address_id : Option String) : M (Option Json) := do
  match address_id with
  | none => pure (some (.obj []))
  | some aid =>
    if aid.length == 0 then
      pure (some (.obj []))
    else do
      let st ← getM
      match listGet st.addresses aid with
      | some Json.null => addressFetch fuel aid
      | some cached => pure (some cached)
      | none => addressFetch fuel aid

/-- Render an optional string as a JSON value (Python assignment of a
possibly-`None` string field). -/
def optStrJson : Option String → Json
  | none => .null
  | some s => .str s

/-- `TelenetClient.add_product_type` (client.py 189-193). -/
def add_product_type (product_type : Option String) : M Unit := do
  let st ← getM
  if st.product_types.contains product_type then pure ()
  else setM { st with product_types := st.product_types ++ [product_type] }

/-- The `try` block of `client.py` lines 209-220: extract a positive sales
price from the spec sheet; any failure (missing keys, `.get` on `None`,
unparsable value) is swallowed and leaves the price as `None`. -/
def extractPrice (product_info : Json) : Option Json :=
  match (jget product_info "characteristics").bind (fun c => jget c "salespricevatincl") with
  | none => none
  | some spvi =>
    match jget spvi "value" with
    | none => none
    | some v => if str_to_float v > 0 then some spvi else none

/-- The `try` block of `client.py` lines 224-229: the localized display name
from the spec sheet, falling back to the raw `label` only when an exception
occurred (a present entry without a `name` key yields Python `None`, not
the fallback). -/
def localizedState (language : String) (product_info product : Json) : Json :=
  match product_info with
  | .obj kvs =>
    match get_localized language ((listGet kvs "localizedcontent").getD .null) with
    | some (.obj lk) => (listGet lk "name").getD .null
    | some _ => (jget product "label").getD .null
    | none => (jget product "label").getD .null
  | _ => (jget product "label").getD .null

/-- `TelenetClient.add_product` (client.py 195-245): a duplicate identifier
is a no-op returning `False` before any other effect; otherwise the spec
sheet is fetched eagerly when a spec URL is present (price and localized
name enrichment, best-effort), the address is resolved through the cache,
and the record is registered under its identifier. -/
def add_product (fuel : Nat) (product : Json) (plan_identifier : Option String)
    (_state_prop : String) (plan_label : Json) : M Bool := do
  let st ← getM
  let identifier := asStrOpt (jget product "identifier")
  if listHasKey st.all_products identifier then
    pure false
  else do
    let type := asStrOpt (jget product "productType")
    let specurl := (jget product "specurl").getD .null
    let product_info ←
      match specurl with
      | .null => pure (Json.obj [])
      | v => do
        let pd ← product_details fuel (asStr v)
        match pd with
        | none => throwM (.attributeError "object has no attribute get")
        | some j => liftE (pyGet j "product")
    let product_price := extractPrice product_info
    let state := localizedState st.language product_info product
    let addr ← address fuel (asStrOpt (jget product "addressId"))
    let prod : TelenetProduct := {
      product_identifier := identifier
      product_type := type
      product_description_key := type
      product_plan_identifier := plan_identifier
      product_plan_label := plan_label
      product_name := optStrJson identifier
      product_key := format_entity_name
        (pyOptStr identifier ++ " " ++ pyOptStr type ++ " product")
      product_state := state
      product_specurl := asStrOpt (jget product "specurl")
      product_info := product_info
      product_address := addr
      product_price := product_price
    }
    let st2 ← getM
    setM { st2 with all_products := listInsert st2.all_products identifier prod }
    add_product_type type
    pure true

/-- Python numeric coercion for direct arithmetic on JSON values
(`TypeError` on non-numbers, as Python `+`/`/` would raise). -/
def jNum : Json → Except PyErr Rat
  | .num q => .ok q
  | .bool b => .ok (if b then 1 else 0)
  | _ => .error (.typeError "unsupported operand type")

/-- Python division (`ZeroDivisionError` modelled in the `TypeError`
class of runtime failures). -/
def pyDiv (a b : Rat) : Except PyErr Rat :=
  if b = 0 then .error (.typeError "division by zero") else .ok (a / b)

/-- Python truthiness of a JSON value. -/
def pyTruthy : Json → Bool
  | .null => false
  | .bool b => b
  | .num q => q != 0
  | .str s => s.length != 0
  | .arr xs => !xs.isEmpty
  | .obj kvs => !kvs.isEmpty

/-- Python `.get` on a value that may be the `False` sentinel
(`False.get(...)` raises `AttributeError`). -/
def pyGetS (v : Option Json) (k : String) : Except PyErr Json :=
  match v with
  | none => .error (.attributeError "bool object has no attribute get")
  | some j => pyGet j k

/-- Python `x in y` for containers: dict keys, substring for strings,
element equality (string elements) for lists, `TypeError` otherwise. -/
def pyMember (container : Json) (x : String) : Except PyErr Bool :=
  match container with
  | .obj kvs => .ok (listHasKey kvs x)
  | .str s => .ok (strContains s x)
  | .arr xs => .ok (xs.any fun e => match e with | .str t => t == x | _ => false)
  | _ => .error (.typeError "argument is not iterable")

/-- The key/value pairs of a dict operand of Python `|` (`TypeError` on a
non-dict right operand). -/
def pyDictKvs : Json → Except PyErr (List (String × Json))
  | .obj kvs => .ok kvs
  | _ => .error (.typeError "unsupported operand type for dict merge")

/-- Python `x.lower()` (`AttributeError` on non-strings). -/
def pyLower : Json → Except PyErr String
  | .str s => .ok (lowerStr s)
  | _ => .error (.attributeError "object has no attribute lower")

/-- Python iteration over a JSON value (the source only iterates arrays). -/
def pyIter : Json → Except PyErr (List Json)
  | .arr xs => .ok xs
  | _ => .error (.typeError "object is not iterable")

/-- Python `s.replace(pat, rep)` on character lists for a non-empty pattern:
non-overlapping replacement scanning left to right.  The `fuel` argument
makes the recursion structural; one character is consumed per step, so
`length + 1` fuel always suffices. -/
def pyReplaceAux (pat rep : List Char) : Nat → List Char → List Char
  | 0, l => l
  | _ + 1, [] => []
  | fuel + 1, c :: cs =>
    if pat.isPrefixOf (c :: cs) then
      rep ++ pyReplaceAux pat rep fuel (List.drop (pat.length - 1) cs)
    else
      c :: pyReplaceAux pat rep fuel cs

/-- Python `s.replace(pat, rep)` for a non-empty pattern. -/
def pyReplace (s pat rep : String) : String :=
  String.mk (pyReplaceAux pat.data rep.data (s.data.length + 1) s.data)

/-- The localized name lookup `get_localized(...).get("name")` in contexts
without a surrounding `try` (an entry that is not a dict, or no entry at
all, raises `AttributeError` as `.get` on `None` would). -/
def getLocalizedName (language : String) (content : Json) : Except PyErr Json :=
  match get_localized language content with
  | some (.obj lk) => .ok ((listGet lk "name").getD .null)
  | some _ => .error (.attributeError "object has no attribute get")
  | none => .error (.attributeError "object has no attribute get")

/-- `TelenetClient.construct_extra_sensor` (client.py 319-350): build one
derived sensor record; the dictionary key (and `product_key`) is
`format_entity_name` over `identifier type suffix`, where the identifier is
replaced by the plan identifier when `use_plan_identifier` is set. -/
def construct_extra_sensor (product : TelenetProduct) (suffix : String)
    (product_description_key : String) (product_state : Json)
    (product_extra_attributes : List (String × Json)) (use_plan_identifier : Bool)
    (native_unit_of_measurement : Json) : Option String × TelenetProduct :=
  let type := product.product_type
  let identifier0 := product.product_identifier
  let plan_identifier := product.product_plan_identifier
  let identifier := if use_plan_identifier then plan_identifier else identifier0
  let product_key := format_entity_name
    (pyOptStr identifier ++ " " ++ pyOptStr type ++ " " ++ suffix)
  (some product_key,
    { product_identifier := some (pyOptStr identifier ++ " " ++ suffix)
      product_type := type
      product_description_key := some product_description_key
      product_plan_identifier := plan_identifier
      product_plan_label := product.product_plan_label
      product_name := .str (pyOptStr identifier ++ " " ++ suffix)
      product_key := product_key
      product_state := product_state
      product_extra_sensor := true
      product_extra_attributes := .pydict product_extra_attributes
      native_unit_of_measurement := native_unit_of_measurement })

/-- `TelenetClient.create_extra_attributes_list` (client.py 966-971): copy a
dict's key/value pairs in order. -/
def create_extra_attributes_list (attr_list : Json) : Except PyErr (List (String × Json)) :=
  match attr_list with
  | .obj kvs => .ok kvs
  | _ => .error (.typeError "attribute source is not a dict")

/-- Add one keyed sensor to the `new_products` accumulator
(`new_products.update(self.construct_extra_sensor(...))`). -/
def listIns (acc : List (Option String × TelenetProduct))
    (kv : Option String × TelenetProduct) : List (Option String × TelenetProduct) :=
  listInsert acc kv.1 kv.2

/-- The Wi-Fi sensor block of the internet branch (client.py 570-594), run
when the wireless settings are not the sentinel: always a `wi-fi` sensor;
additionally, exactly when the `singleSSIDRoamingSettings` block contains a
`networkKey`, a `wi-fi qr` sensor whose state is the
`WIFI:S:<ssid>;T:WPA;P:<key>;;` payload with each colon of the key replaced
by backslash-colon. -/
def wifiSensorBlock (product : TelenetProduct) (wireless_settings : Json) :
    Except PyErr (List (Option String × TelenetProduct)) := do
  let wifiAttrs ← create_extra_attributes_list wireless_settings
  let wifiState ← pyGet wireless_settings "wirelessEnabled"
  let wifi := construct_extra_sensor product "wi-fi" "wifi" wifiState wifiAttrs false .null
  let ssidBlock ← pyGet wireless_settings "singleSSIDRoamingSettings"
  let hasKey ← pyMember ssidBlock "networkKey"
  if hasKey then do
    let nk ← pyGet ssidBlock "networkKey"
    let network_key ←
      match nk with
      | .str s => Except.ok (pyReplace s ":" "\\:")
      | _ => Except.error (.attributeError "object has no attribute replace")
    let name ← pyGet ssidBlock "name"
    let wifi_qr := "WIFI:S:" ++ pyFmt name ++ ";T:WPA;P:" ++ network_key ++ ";;"
    let qr := construct_extra_sensor product "wi-fi qr" "qr" (.str wifi_qr) [] false .null
    Except.ok [wifi, qr]
  else
    Except.ok [wifi]

/-- The internet branch of `create_extra_sensors` (client.py 381-594) for
one product; `acc` is the `new_products` accumulator and `pure acc` is the
Python `continue`.  The unchecked `billcycle.get(...)` on the sentinel
returned by `bill_cycles` raises `AttributeError`, as in Python. -/
def internetExtraSensors (fuel : Nat) (acc : List (Option String × TelenetProduct))
    (product : TelenetProduct) (product_specs : Json) :
    M (List (Option String × TelenetProduct)) := do
  let type := product.product_type
  let identifier := product.product_identifier
  let billcycle ← bill_cycles fuel type identifier 2
  let start_date ← liftE (pyGetS billcycle "start_date")
  let end_date ← liftE (pyGetS billcycle "end_date")
  let pu ← product_usage fuel type identifier start_date end_date
  match pu with
  | none => pure acc
  | some product_usage_v => do
    let cyclesJ ← liftE (pyGetS billcycle "cycles")
    let cycles ← liftE (pyIter cyclesJ)
    let dinit : List Json × List Json × List Json × List Json × List (Option String × Json) :=
      ([], [], [], [], [])
    let dres ← cycles.foldlM (fun dacc cycle => do
        let (dp, dop, dt, dd, pdu) := dacc
        let bcy ← liftE (pyGet cycle "billCycle")
        let sd ← liftE (pyGet cycle "startDate")
        let ed ← liftE (pyGet cycle "endDate")
        let daily_usage? ← product_daily_usage fuel type identifier bcy sd ed
        match daily_usage? with
        | none => throwM (.typeError "len of bool")
        | some du =>
          if jlen du == 0 then
            pure (dp, dop, dt, dd, pdu)
          else do
            let pdu := listInsert pdu (asStr bcy) du
            let entry := (listGet pdu (asStr bcy)).getD .null
            let iu ← liftE (pyGet entry "internetUsage")
            let iu0 ← liftE (pyIndex iu 0)
            let dusJ ← liftE (pyGet iu0 "dailyUsages")
            let dus ← liftE (pyIter dusJ)
            let dres2 ← dus.foldlM (fun da day => do
                let (dp, dop, dt, dd) := da
                let p ← liftE (pyGet day "peak")
                let o ← liftE (pyGet day "offPeak")
                let t ← liftE (pyGet day "total")
                let d ← liftE (pyGet day "date")
                pure (dp ++ [p], dop ++ [o], dt ++ [t], dd ++ [d]))
              (dp, dop, dt, dd)
            let (dp, dop, dt, dd) := dres2
            pure (dp, dop, dt, dd, pdu)) dinit
    let (daily_peak, daily_off_peak, daily_total, daily_date, pdu) := dres
    -- lines 423-428: `product_daily_usage.get("CURRENT")` is a dict value
    -- or None, never the Python `False` sentinel, so the `is False` check
    -- can not fire
    let pdu_current : Json := (listGet pdu (some "CURRENT")).getD .null
    let modem? ← modems fuel identifier
    match modem? with
    | none => pure acc
    | some modem => do
      let usage ← liftE (pyGetK product_usage_v type)
      let totalUsage ← liftE (pyGet usage "totalUsage")
      let tuUnitsJ ← liftE (pyGet totalUsage "units")
      let tuN ← liftE (jNum tuUnitsJ)
      let allocated ← liftE (pyGet usage "allocatedUsage")
      let alUnitsJ ← liftE (pyGet allocated "units")
      let alN ← liftE (jNum alUnitsJ)
      let extended ← liftE (pyGet usage "extendedUsage")
      let exVolJ ← liftE (pyGet extended "volume")
      let exN ← liftE (jNum exVolJ)
      let usage_pct ← liftE (pyDiv (100 * tuN) (alN + exN))
      let period_length := parseDateTime end_date - parseDateTime start_date
      let period_length_days := timedeltaDays period_length
      let stc ← getM
      let period_used_seconds := stc.now - parseDateTime start_date
      let pupRaw ← liftE (pyDiv (100 * (period_used_seconds : Rat)) ((period_length : Int) : Rat))
      let period_used_percentage := pyRound pupRaw 1
      let offPeakCur ← liftE (jNum (get_json_dict_path pdu_current "$.internetUsage[0].totalUsage.offPeak"))
      let peakUsedJ ← liftE (pyGet usage "peakUsage" >>= (pyGet · "usedUnits"))
      let peakUsedN ← liftE (jNum peakUsedJ)
      let last_update ← liftE (pyGet totalUsage "lastUsageDate")
      let days_until ← liftE (pyGet usage "daysUntil")
      let tuUnitType ← liftE (pyGet totalUsage "unitType")
      let wifree ← liftE (pyGet usage "wifreeUsage")
      let wifreeUsed ← liftE (pyGet wifree "usedUnits")
      let wifreeUT ← liftE (pyGet wifree "unitType")
      let alUnitType ← liftE (pyGet allocated "unitType")
      let exUnit ← liftE (pyGet extended "unit")
      let exPrice ← liftE (pyGet extended "price")
      let exCurrency ← liftE (pyGet extended "currency")
      let product_label ← liftE (pyGet product_specs "localizedcontent" >>=
        getLocalizedName stc.language)
      let salesp ← liftE (pyGet product_specs "characteristics" >>=
        (pyGet · "salespricevatincl"))
      let spValue ← liftE (pyGet salesp "value")
      let spUnit ← liftE (pyGet salesp "unit")
      let attributes : List (String × Json) := [
        ("identifier", optStrJson identifier),
        ("last_update", last_update),
        ("start_date", start_date),
        ("end_date", end_date),
        ("days_until", days_until),
        ("total_usage", .str (pyFmt tuUnitsJ ++ " " ++ pyFmt tuUnitType)),
        ("wifree_usage", .str (pyFmt wifreeUsed ++ " " ++ pyFmt wifreeUT)),
        ("allocated_usage", .str (pyFmt alUnitsJ ++ " " ++ pyFmt alUnitType)),
        ("extended_usage", .str (pyFmt exVolJ ++ " " ++ pyFmt exUnit)),
        ("extended_usage_price", .str (pyFmt exPrice ++ " " ++ pyFmt exCurrency)),
        ("peak_usage", peakUsedJ),
        ("offpeak_usage", .num (pyRound offPeakCur 1)),
        ("total_usage_with_offpeak", .num (peakUsedN + pyRound offPeakCur 1)),
        ("used_percentage", .num (pyRound usage_pct 2)),
        ("period_used_percentage", .num period_used_percentage),
        ("period_remaining_percentage", .num (100 - period_used_percentage)),
        ("squeezed", .bool (decide (100 ≤ usage_pct))),
        ("period_length", .num ((period_length_days : Int) : Rat)),
        ("product_label", product_label),
        ("sales_price", .str (pyFmt spValue ++ " " ++ pyFmt spUnit))]
      let servicesJ ← liftE (pyGet product_specs "services")
      let services ← liftE (pyIter servicesJ)
      let sres ← services.foldlM (fun (sacc : List (String × Json) × String) services_e => do
          let specsJ ← liftE (pyGet services_e "specifications")
          let specs ← liftE (pyIter specsJ)
          specs.foldlM (fun (sacc2 : List (String × Json) × String) specification => do
              let (attrs, service) := sacc2
              let labelkey ← liftE (pyGet specification "labelkey")
              let value ← liftE (pyGet specification "value")
              let unit ← liftE (pyGet specification "unit")
              let isDown := match labelkey with
                | .str s => s == "spec.fixedinternet.speed.download"
                | _ => false
              let isUp := match labelkey with
                | .str s => s == "spec.fixedinternet.speed.upload"
                | _ => false
              let attrs :=
                if isDown then
                  listInsert attrs "download_speed" (.str (pyFmt value ++ " " ++ pyFmt unit))
                else if isUp then
                  listInsert attrs "upload_speed" (.str (pyFmt value ++ " " ++ pyFmt unit))
                else attrs
              let visible ← liftE (pyGet specification "visible")
              if pyTruthy visible then do
                let lc ← liftE (pyGet specification "localizedcontent")
                let nm ← liftE (getLocalizedName stc.language lc)
                let service := service ++ pyFmt nm
                let service := match value with | .null => service | v => service ++ " " ++ pyFmt v
                let service := match unit with | .null => service | v => service ++ " " ++ pyFmt v
                pure (attrs, service ++ "\n")
              else
                pure (attrs, service)) sacc) (attributes, "")
      let (attributes, service) := sres
      let attributes :=
        if 100 ≤ usage_pct then
          listInsert (listInsert attributes "download_speed" (.str "1 Mbps"))
            "upload_speed" (.str "256 Kbps")
        else attributes
      let attributes := listInsert attributes "service" (.str service)
      let acc := listIns acc (construct_extra_sensor product "usage" "usage_percentage"
        (.num usage_pct) attributes false .null)
      let peakTot := get_json_dict_path pdu_current "$.internetUsage[0].totalUsage.peak"
      let duAttrs ← liftE (create_extra_attributes_list
        (get_json_dict_path pdu_current "$.internetUsage[0].totalUsage"))
      let acc := listIns acc (construct_extra_sensor product "daily usage" "data_usage" peakTot
        (listUpdate duAttrs
          [("daily_peak", .arr daily_peak), ("daily_off_peak", .arr daily_off_peak),
           ("daily_total", .arr daily_total), ("daily_date", .arr daily_date)]) false .null)
      let modemName ← liftE (pyGet modem "name")
      let modemAttrs ← liftE (create_extra_attributes_list modem)
      let acc := listIns acc (construct_extra_sensor product "modem" "modem" modemName
        modemAttrs false .null)
      let mac ← liftE (pyGet modem "mac")
      let nt? ← network_topology fuel mac
      let network_topology_v ← liftE (clean_ipv6 nt?)
      let ntModel ← liftE (pyGet network_topology_v "model")
      let ntAttrs ← liftE (create_extra_attributes_list network_topology_v)
      let acc := listIns acc (construct_extra_sensor product "network" "network" ntModel
        ntAttrs false .null)
      let ws? ← wireless_settings fuel mac identifier
      match ws? with
      | none => pure acc
      | some ws => do
        let block ← liftE (wifiSensorBlock product ws)
        pure (block.foldl listIns acc)

/-- The dtv branch of `create_extra_sensors` (client.py 595-652) for one
product (skipped entirely for plans marked `product_ignore_extra_sensor`). -/
def dtvExtraSensors (fuel : Nat) (acc : List (Option String × TelenetProduct))
    (product : TelenetProduct) (ptAttr : List (String × Json)) :
    M (List (Option String × TelenetProduct)) := do
  let type := product.product_type
  let identifier := product.product_identifier
  if product.product_ignore_extra_sensor then
    pure acc
  else do
    let billcycle ← bill_cycles fuel type identifier 1
    let start_date ← liftE (pyGetS billcycle "start_date")
    let end_date ← liftE (pyGetS billcycle "end_date")
    let pu ← product_usage fuel type identifier start_date end_date
    match pu with
    | none => pure acc
    | some product_usage_v => do
      let devices? ← device_details fuel type identifier
      match devices? with
      | none => pure acc
      | some devices => do
        let cur := str_to_float (get_json_dict_path product_usage_v "$.dtv.totalUsage.currentUsage")
        modifyM fun s => { s with total_cost := s.total_cost + cur }
        let dtvAttrs ← liftE (create_extra_attributes_list
          (get_json_dict_path product_usage_v "$.dtv"))
        let acc := listIns acc (construct_extra_sensor product "usage" "euro" (.num cur)
          (listUpdate dtvAttrs ptAttr) false .null)
        let dtvListJ ← liftE (pyGet devices "dtv")
        let dtvL ← liftE (pyIter dtvListJ)
        let acc ← (List.range dtvL.length).foldlM (fun acc idx => do
            let boxName := get_json_dict_path devices ("$.dtv[" ++ toString idx ++ "].boxName")
            let devAttrs ← liftE (create_extra_attributes_list
              (get_json_dict_path devices ("$.dtv[" ++ toString idx ++ "]")))
            pure (listIns acc (construct_extra_sensor product "dtv device" "dtv" boxName
              devAttrs false .null))) acc
        pure acc

/-- The mobile bundle-line branch of `create_extra_sensors` (client.py
657-822), taken when the plan identifier differs from the product
identifier: bundle-level sensors keyed by the plan identifier (only the
first time the bundle is seen), then the line-level sensors. -/
def mobileBundleExtraSensors (fuel : Nat) (acc : List (Option String × TelenetProduct))
    (product : TelenetProduct) (ptAttr : List (String × Json)) :
    M (List (Option String × TelenetProduct)) := do
  let type := product.product_type
  let identifier := product.product_identifier
  let plan_identifier := product.product_plan_identifier
  let st0 ← getM
  let bundle_key := format_entity_name (pyOptFmt (jget st0.user_details "identity_id") ++
    " " ++ pyOptStr plan_identifier ++ " " ++ pyOptStr type ++ " bundle")
  let usage? ← mobile_bundle_usage fuel plan_identifier identifier
  match usage? with
  | none => pure acc
  | some usage => do
    let next_billing_date ← liftE (pyGet usage "nextBillingDate")
    -- `if next_billing_date is False:` (lines 668-672): only a JSON `false`
    -- body value can make this fire
    match next_billing_date with
    | .bool false => pure acc
    | _ => do
      let nbdt := parseDateTime next_billing_date
      let days_until := timedeltaDays (nbdt - st0.now)
      let attr_to_merge : List (String × Json) :=
        [("days_until", .num ((days_until : Int) : Rat)),
         ("next_billing_date", next_billing_date)]
      let bundleusage? ← mobile_bundle_usage fuel plan_identifier none
      match bundleusage? with
      | none => pure acc
      | some bundleusage => do
        let acc ←
          if (listGet st0.all_products (some bundle_key)).isNone then do
            let oob := str_to_float (get_json_dict_path bundleusage "$.outOfBundle.usedUnits")
            modifyM fun s => { s with total_cost := s.total_cost + oob }
            let oobAttrs ← liftE (create_extra_attributes_list
              (get_json_dict_path bundleusage "$.outOfBundle"))
            let acc := listIns acc (construct_extra_sensor product "out of bundle" "euro"
              (.num oob) (listUpdate (listUpdate oobAttrs attr_to_merge) ptAttr) true .null)
            let shared ← liftE (pyGet bundleusage "shared")
            let dataL ← liftE (pyGet shared "data" >>= pyIter)
            let acc ← dataL.foldlM (fun acc data => do
                let bucketType ← liftE (pyGet data "bucketType")
                let usedPercentage ← liftE (pyGet data "usedPercentage")
                let usedUnits ← liftE (pyGet data "usedUnits")
                let startUnits ← liftE (pyGet data "startUnits")
                let unitType ← liftE (pyGet data "unitType")
                let dkvs ← liftE (pyDictKvs data)
                pure (listIns acc (construct_extra_sensor product (pyFmt bucketType)
                  "usage_percentage_mobile" usedPercentage
                  (listUpdate (listUpdate
                    [("usage", .str (pyFmt usedUnits ++ "/" ++ pyFmt startUnits ++ " " ++
                      pyFmt unitType))] dkvs) attr_to_merge) true .null))) acc
            let textL ← liftE (pyGet shared "text" >>= pyIter)
            let acc ← textL.foldlM (fun acc data => do
                let usedUnits ← liftE (pyGet data "usedUnits")
                let dkvs ← liftE (pyDictKvs data)
                pure (listIns acc (construct_extra_sensor product "sms" "mobile_sms"
                  usedUnits
                  (listUpdate [("usage", .str (pyFmt usedUnits ++ " SMSes"))] dkvs)
                  true .null))) acc
            let voiceL ← liftE (pyGet shared "voice" >>= pyIter)
            let acc ← voiceL.foldlM (fun acc data => do
                let usedUnits ← liftE (pyGet data "usedUnits")
                let unitType ← liftE (pyGet data "unitType")
                let dkvs ← liftE (pyDictKvs data)
                pure (listIns acc (construct_extra_sensor product "voice" "mobile_voice"
                  (.str (float_to_timestring usedUnits unitType))
                  (listUpdate (listUpdate
                    [("usage", .str (float_to_timestring usedUnits unitType))] dkvs)
                    attr_to_merge) true .null))) acc
            pure acc
          else
            pure acc
        let oob2 := str_to_float (get_json_dict_path usage "$.outOfBundle.usedUnits")
        modifyM fun s => { s with total_cost := s.total_cost + oob2 }
        let oobAttrs2 ← liftE (create_extra_attributes_list
          (get_json_dict_path usage "$.outOfBundle"))
        let acc := listIns acc (construct_extra_sensor product "out of bundle" "euro"
          (.num oob2) (listUpdate (listUpdate oobAttrs2 attr_to_merge) ptAttr) false .null)
        let shared2 ← liftE (pyGet usage "shared")
        let dataL2 ← liftE (pyGet shared2 "data" >>= pyIter)
        let acc ← dataL2.foldlM (fun acc data => do
            let nameL ← liftE (pyGet data "name" >>= pyLower)
            let usedUnits ← liftE (pyGet data "usedUnits")
            let unitType ← liftE (pyGet data "unitType")
            let dkvs ← liftE (pyDictKvs data)
            pure (listIns acc (construct_extra_sensor product nameL "mobile_data"
              (.num (str_to_float usedUnits))
              (listUpdate (listUpdate
                [("usage", .str (pyFmt usedUnits ++ " " ++ pyFmt unitType))] dkvs)
                attr_to_merge) false unitType))) acc
        let textL2 ← liftE (pyGet shared2 "text" >>= pyIter)
        let acc ← textL2.foldlM (fun acc data => do
            let nameL ← liftE (pyGet data "name" >>= pyLower)
            let usedUnits ← liftE (pyGet data "usedUnits")
            let dkvs ← liftE (pyDictKvs data)
            pure (listIns acc (construct_extra_sensor product (pyReplace nameL "text" "sms")
              "mobile_sms" usedUnits
              (listUpdate (listUpdate [("usage", .str (pyFmt usedUnits ++ " SMSes"))] dkvs)
                attr_to_merge) false .null))) acc
        let voiceL2 ← liftE (pyGet shared2 "voice" >>= pyIter)
        let acc ← voiceL2.foldlM (fun acc data => do
            let nameL ← liftE (pyGet data "name" >>= pyLower)
            let usedUnits ← liftE (pyGet data "usedUnits")
            let unitType ← liftE (pyGet data "unitType")
            let dkvs ← liftE (pyDictKvs data)
            pure (listIns acc (construct_extra_sensor product nameL "mobile_voice"
              (.str (float_to_timestring usedUnits unitType))
              (listUpdate (listUpdate
                [("usage", .str (float_to_timestring usedUnits unitType))] dkvs)
                attr_to_merge) false .null))) acc
        pure acc

/-- The mobile standalone-line branch of `create_extra_sensors` (client.py
823-922), taken when the plan identifier equals the product identifier:
an out-of-bundle sensor keyed by the plan identifier, then data/SMS/voice
sensors, each suppressed when all of start/remaining/used units are zero.
The voice sensor of lines 902-922 is keyed with the suffix `"sms"` in the
source (line 911). -/
def mobileStandaloneExtraSensors (fuel : Nat)
    (acc : List (Option String × TelenetProduct)) (product : TelenetProduct)
    (ptAttr : List (String × Json)) : M (List (Option String × TelenetProduct)) := do
  let identifier := product.product_identifier
  let st0 ← getM
  let usage? ← mobile_usage fuel identifier
  match usage? with
  | none => pure acc
  | some usage => do
    let next_billing_date ← liftE (pyGet usage "nextBillingDate")
    let nbdt := parseDateTime next_billing_date
    let days_until := timedeltaDays (nbdt - st0.now)
    let attr_to_merge : List (String × Json) :=
      [("days_until", .num ((days_until : Int) : Rat)),
       ("next_billing_date", next_billing_date)]
    let oob := str_to_float (get_json_dict_path usage "$.outOfBundle.usedUnits")
    modifyM fun s => { s with total_cost := s.total_cost + oob }
    let oobAttrs ← liftE (create_extra_attributes_list
      (get_json_dict_path usage "$.outOfBundle"))
    let acc := listIns acc (construct_extra_sensor product "out of bundle" "euro"
      (.num oob) (listUpdate (listUpdate oobAttrs attr_to_merge) ptAttr) true .null)
    let total ← liftE (pyGet usage "total")
    let dataB ← liftE (pyGet total "data")
    let dSu ← liftE (pyGet dataB "startUnits" >>= pyInt)
    let dRu ← liftE (pyGet dataB "remainingUnits" >>= pyInt)
    let dUu ← liftE (pyGet dataB "usedUnits" >>= pyInt)
    let acc ←
      if dSu > 0 || dRu > 0 || dUu > 0 then do
        let usedUnits ← liftE (pyGet dataB "usedUnits")
        let unitType ← liftE (pyGet dataB "unitType")
        let dkvs ← liftE (pyDictKvs dataB)
        pure (listIns acc (construct_extra_sensor product "data" "mobile_data"
          (.num (str_to_float usedUnits))
          (listUpdate (listUpdate
            [("usage", .str (pyFmt usedUnits ++ " " ++ pyFmt unitType))] dkvs)
            attr_to_merge) false unitType))
      else pure acc
    let textB ← liftE (pyGet total "text")
    let tSu ← liftE (pyGet textB "startUnits" >>= pyInt)
    let tRu ← liftE (pyGet textB "remainingUnits" >>= pyInt)
    let tUu ← liftE (pyGet textB "usedUnits" >>= pyInt)
    let acc ←
      if tSu > 0 || tRu > 0 || tUu > 0 then do
        let usedUnits ← liftE (pyGet textB "usedUnits")
        let startUnits ← liftE (pyGet textB "startUnits")
        let dkvs ← liftE (pyDictKvs textB)
        pure (listIns acc (construct_extra_sensor product "sms" "mobile_sms" usedUnits
          (listUpdate (listUpdate
            [("usage", .str (pyFmt usedUnits ++ " / " ++ pyFmt startUnits ++ " SMSes"))]
            dkvs) attr_to_merge) false .null))
      else pure acc
    let voiceB ← liftE (pyGet total "voice")
    let vSu ← liftE (pyGet voiceB "startUnits" >>= pyInt)
    let vRu ← liftE (pyGet voiceB "remainingUnits" >>= pyInt)
    let vUu ← liftE (pyGet voiceB "usedUnits" >>= pyInt)
    let acc ←
      if vSu > 0 || vRu > 0 || vUu > 0 then do
        let usedUnits ← liftE (pyGet voiceB "usedUnits")
        let startUnits ← liftE (pyGet voiceB "startUnits")
        let unitType ← liftE (pyGet voiceB "unitType")
        let unitTypeL ← liftE (pyLower unitType)
        let dkvs ← liftE (pyDictKvs voiceB)
        pure (listIns acc (construct_extra_sensor product "sms" "mobile_voice"
          (.str (float_to_timestring usedUnits unitType))
          (listUpdate (listUpdate
            [("usage", .str (pyFmt usedUnits ++ " / " ++ pyFmt startUnits ++ " " ++
              unitTypeL))] dkvs) attr_to_merge) false .null))
      else pure acc
    pure acc

/-- One iteration of the `create_extra_sensors` product loop (client.py
355-922): spec-sheet fetch and localized type label, the optional price
sensor (the line-369 assignment to the non-field `specurl` is a stray
attribute with no reader and no embedded effect), then the type-specific
fan-out. -/
def extraSensorsFor (fuel : Nat) (acc : List (Option String × TelenetProduct))
    (product : TelenetProduct) : M (List (Option String × TelenetProduct)) := do
  let type := product.product_type
  let identifier := product.product_identifier
  let plan_identifier := product.product_plan_identifier
  let st0 ← getM
  let pd ← product_details fuel product.product_specurl
  let product_specs ←
    match pd with
    | none => throwM (.attributeError "bool object has no attribute get")
    | some j => liftE (pyGet j "product")
  let ptname ← liftE (pyGet product_specs "localizedcontent" >>=
    getLocalizedName st0.language)
  let ptAttr : List (String × Json) := [("product type", ptname)]
  let acc ←
    match product.product_price with
    | none => pure acc
    | some price => do
      let pv ← liftE (pyGet price "value")
      modifyM fun s => { s with total_cost := s.total_cost + str_to_float pv }
      let pkvs ← liftE (pyDictKvs price)
      pure (listIns acc (construct_extra_sensor product "price" "euro"
        (.num (str_to_float pv)) (listUpdate pkvs ptAttr) false .null))
  if type == some "internet" then
    internetExtraSensors fuel acc product product_specs
  else if type == some "dtv" then
    dtvExtraSensors fuel acc product ptAttr
  else if type == some "mobile" then
    if plan_identifier != identifier then
      mobileBundleExtraSensors fuel acc product ptAttr
    else
      mobileStandaloneExtraSensors fuel acc product ptAttr
  else
    pure acc

/-- `TelenetClient.create_extra_sensors` (client.py 352-964): run the
per-product fan-out over a snapshot of the table, then append the synthetic
account-level `current invoice` and `user details` sensors and merge
everything into the product table. -/
def create_extra_sensors (fuel : Nat) : M Bool := do
  let st0 ← getM
  let new_products ← st0.all_products.foldlM
    (fun acc kv => extraSensorsFor fuel acc kv.2) []
  let st1 ← getM
  let cn := pyOptFmt (jget st1.user_details "customer_number")
  let invoice_key := format_entity_name (cn ++ " current invoice")
  let invoice : TelenetProduct := {
    product_identifier := some (cn ++ " current invoice")
    product_type := some "invoice"
    product_description_key := some "euro"
    product_name := .str "current invoice"
    product_key := invoice_key
    product_plan_identifier := asStrOpt (jget st1.user_details "customer_number")
    product_plan_label := .str "Customer"
    product_state := .num st1.total_cost
    product_extra_sensor := true }
  let new_products := listInsert new_products (some invoice_key) invoice
  let user_key := format_entity_name (cn ++ " user details")
  let userSensor : TelenetProduct := {
    product_identifier := some "user details"
    product_type := some "user"
    product_description_key := some "user"
    product_name := .str "user details"
    product_key := user_key
    product_plan_identifier := asStrOpt (jget st1.user_details "customer_number")
    product_plan_label := .str "Customer"
    product_state := (jget st1.user_details "first_name").getD .null
    product_extra_attributes := .pydict (jkvs st1.user_details)
    product_extra_sensor := true }
  let new_products := listInsert new_products (some user_key) userSensor
  modifyM fun s => { s with all_products := listUpdate s.all_products new_products }
  pure true

/-- Attribute-name whitelists of `models.py` lines 39-84 as Python `dir()`
yields them: sorted, after the `key[0:2] != "__"` filter. -/
def internetAttrNames : List String :=
  ["activationDate", "identifier", "internetType", "label", "productType",
   "specurl", "status"]

/-- Mobile whitelist (`TelenetMobileProductExtraAttributes`). -/
def mobileAttrNames : List String :=
  ["activationDate", "bundleIdentifier", "bundleType", "hasVoiceMail",
   "identifier", "isDataOnlyPlan", "label", "productType", "specurl", "status"]

/-- Dtv whitelist (`TelenetDtvProductExtraAttributes`). -/
def dtvAttrNames : List String :=
  ["activationDate", "bundleIdentifier", "identifier", "isInteractive",
   "label", "lineType", "productType", "specurl", "status"]

/-- Telephone whitelist (`TelenetTelephoneProductExtraAttributes`). -/
def telephoneAttrNames : List String :=
  ["activationDate", "hasVoiceMail", "identifier", "label", "productType",
   "specurl", "status"]

/-- Bundle whitelist (`TelenetBundleProductExtraAttributes`). -/
def bundleAttrNames : List String :=
  ["activationDate", "bundleFamily", "hasActiveMyBill", "identifier", "label",
   "productType", "products", "specurl", "status"]

/-- The `attributes` binding of `set_extra_attributes` (client.py 987-996):
it is assigned only for the five known types and otherwise keeps the value
left over from the previous loop iteration (Python scoping), being unbound
(`NameError`) when there has been none. -/
def whitelistFor (ptype : Option String) (prev : Option (List String)) :
    Option (List String) :=
  if ptype == some "internet" then some internetAttrNames
  else if ptype == some "mobile" then some mobileAttrNames
  else if ptype == some "dtv" then some dtvAttrNames
  else if ptype == some "telephone" then some telephoneAttrNames
  else if ptype == some "bundle" then some bundleAttrNames
  else prev

/-- The per-product body of `set_extra_attributes` (client.py 975-1001):
select the source record (attached subscription info when non-empty, else
the account-level plan record — whose absence makes the `len(info)` log
call raise), filter it through the type whitelist, and `|=` the result into
the product's extra attributes. -/
def setExtraAttributesStep (plan_products : List (Option String × Json))
    (prev : Option (List String)) (product : TelenetProduct) :
    Except PyErr (TelenetProduct × Option (List String)) := do
  if product.product_extra_sensor then
    .ok (product, prev)
  else do
    let info ←
      if jlen product.product_subscription_info > 0 then
        Except.ok product.product_subscription_info
      else
        match listGet plan_products product.product_identifier with
        | some j => Except.ok j
        | none => Except.error (.typeError "len of NoneType")
    let wl ←
      match whitelistFor product.product_type prev with
      | some w => Except.ok w
      | none => Except.error .nameError
    let extra_attributes := wl.filterMap fun key =>
      if jmem info key then (jget info key).map (fun v => (key, v)) else none
    let newAttrs ← pyIor product.product_extra_attributes extra_attributes
    .ok ({ product with product_extra_attributes := newAttrs }, some wl)

/-- `TelenetClient.set_extra_attributes` (client.py 973-1002). -/
def set_extra_attributes : M Bool := do
  let st0 ← getM
  let res ← st0.all_products.foldlM
    (fun (a : List (Option String × TelenetProduct) × Option (List String)) kv => do
      let (tbl, prev) := a
      let r ← liftE (setExtraAttributesStep st0.plan_products prev kv.2)
      pure (listInsert tbl kv.1 r.1, r.2)) ([], none)
  modifyM fun s => { s with all_products := res.1 }
  pure true

/-- `TelenetClient.products` (client.py 251-317): serve from the cache
unless empty or a refresh is forced; otherwise log in, reset the cost
accumulator and the table, fetch the ACTIVE products (the soft-failure
sentinel raises the "not migrated / API down" service error), register the
plan / children / options tree under the plan's identifier, mark a dtv plan
with a dtv child as `ignore extra sensors`, then run the subscription,
plan-info, derived-sensor and extra-attribute passes and return the table's
values. -/
def products (fuel : Nat) (force_refresh : Bool) : M (List TelenetProduct) := do
  let st0 ← getM
  if st0.all_products.length > 0 && !force_refresh then
    pure (st0.all_products.map fun kv => kv.2)
  else do
    _ ← login fuel
    modifyM fun s => { s with total_cost := 0, all_products := [], product_types := [] }
    let rv ← request fuel
      (some (ocapiBase ++ "/public/api/product-service/v1/products?status=ACTIVE"))
      "[TelenetClient|products]" none (some 200)
    match rv with
    | .fal => throwM (.telenetService
        "No products found. Either the API is currently down or you are not migrated to the new Telenet IT system yet.")
    | .js _ => throwM (.typeError "request returned a non-response")
    | .resp response => do
      let aProducts ← liftE (pyIter response.json)
      aProducts.forM fun a_product => do
        let plan_identifier := asStrOpt (jget a_product "identifier")
        let plan_label := (jget a_product "label").getD .null
        _ ← add_product fuel a_product plan_identifier "label" plan_label
        let children ← liftE (pyGet a_product "children" >>= pyIter)
        let dtv_found ← children.foldlM (fun dtv_found child => do
            let dtv_found := dtv_found ||
              (asStrOpt (jget child "productType") == some "dtv")
            if jmem child "options" && jlen ((jget child "options").getD .null) > 0 then do
              let options ← liftE (pyGet child "options" >>= pyIter)
              options.forM fun option => do
                if jmem option "identifier" then do
                  _ ← add_product fuel option plan_identifier "label" plan_label
                  pure ()
                else pure ()
            else pure ()
            _ ← add_product fuel child plan_identifier "label" plan_label
            pure dtv_found) false
        if dtv_found && (asStrOpt (jget a_product "productType") == some "dtv") then do
          let s ← getM
          match listGet s.all_products plan_identifier with
          | none => throwM (.attributeError "NoneType has no attribute")
          | some p =>
            let p' := { p with product_ignore_extra_sensor := true }
            setM { s with all_products := listInsert s.all_products plan_identifier p' }
        else pure ()
      product_subscriptions fuel
      _ ← plan_info fuel
      _ ← create_extra_sensors fuel
      _ ← set_extra_attributes
      let stf ← getM
      pure (stf.all_products.map fun kv => kv.2)

/-- `TelenetClient.products_refreshed` (client.py 247-249). -/
def products_refreshed (fuel : Nat) : M (List TelenetProduct) :=
  products fuel true

/-- A string with every colon replaced by a backslash-colon pair — the
specified shape of the escaped Wi-Fi network key. -/
def colonEscaped (s : String) : String :=
  String.mk (s.data.flatMap fun c => if c = ':' then ['\\', ':'] else [c])

/-- The trailing header mirror of `request` (client.py line 122) applied to
a finished dispatcher outcome. -/
def mirrorPost : Except PyErr (PyVal × ClientState) → Except PyErr (PyVal × ClientState)
  | .ok (r, st) => .ok (r, { st with headerXsrf := st.cookieXsrf })
  | .error e => .error e

/-- Whether a JSON value is Python `None`. -/
def isNull : Json → Bool
  | .null => true
  | _ => false

/-! ### Concrete fixtures used by the claim theorems and witnesses -/

/-- An empty client state around a given transcript. -/
def mkState (transcript : List Response) : ClientState :=
  ⟨transcript, none, none, [], [], .obj [], [], [], .obj [], 0,
   "user@example.com", "pw", "nl", 0⟩

/-- A successful re-login probe: the session is still authenticated. -/
def probeOk : Response :=
  ⟨200, "ud", .obj [("customer_number", .str "123")],
   ocapiBase ++ "/oauth/userdetails", none⟩

/-- A persistent HTTP 500 from the queried endpoint. -/
def resp500 : Response := ⟨500, "err", .obj [], "https://api/u", none⟩

/-- The eventual HTTP 200 from the queried endpoint. -/
def respOk : Response := ⟨200, "ok", .obj [("k", .str "v")], "https://api/u", none⟩

/-- C1: five failure rounds (500 then a successful re-login probe), then a
success — 11 transcript entries, i.e. 5 retries against a budget of 3. -/
def c1st : ClientState :=
  mkState [resp500, probeOk, resp500, probeOk, resp500, probeOk,
           resp500, probeOk, resp500, probeOk, respOk]

/-- C2 counterexample: a 403 whose JSON body carries the benign code. -/
def c2resp : Response :=
  ⟨403, "\x7b\x22code\x22: \x22OCAPI-ERR-667\x22, \x22cause\x22: \x22Access Forbidden\x22\x7d",
   .obj [("code", .str "OCAPI-ERR-667"), ("cause", .str "Access Forbidden")],
   "https://api/x", none⟩

/-- C2 counterexample state. -/
def c2st : ClientState := mkState [c2resp]

/-- C2 retry arm: a 403 whose body text has no error code. -/
def c2noCode : Response := ⟨403, "Denied", .obj [], "https://api/x", none⟩

/-- C2 retry arm state: the 403, a successful login probe, the retried
response. -/
def c2noCodeSt : ClientState := mkState [c2noCode, probeOk, respOk]

/-- C3: a standalone mobile line (plan identifier equals identifier). -/
def c3product : TelenetProduct := {
  product_identifier := some "m1"
  product_type := some "mobile"
  product_description_key := some "mobile"
  product_plan_identifier := some "m1"
  product_plan_label := .str "Mobile Flex"
  product_name := .str "m1"
  product_key := format_entity_name "m1 mobile product"
  product_state := .str "Mobile Flex"
  product_specurl := some "https://spec/m1"
  product_info := .obj [] }

/-- C3: the spec sheet of the mobile line. -/
def c3spec : Response :=
  ⟨200, "spec",
   .obj [("product", .obj [("localizedcontent",
     .arr [.obj [("locale", .str "nl"), ("name", .str "Mobile product")]])])],
   "https://spec/m1", none⟩

/-- C3: line usage with a zero data bucket and non-zero SMS and voice
buckets. -/
def c3usage : Json := .obj [
  ("nextBillingDate", .str "2026-11-01T00:00:00"),
  ("outOfBundle", .obj [("usedUnits", .num 2), ("unitType", .str "euro")]),
  ("total", .obj [
    ("data", .obj [("startUnits", .num 0), ("remainingUnits", .num 0),
                   ("usedUnits", .num 0), ("unitType", .str "GB")]),
    ("text", .obj [("startUnits", .num 100), ("remainingUnits", .num 95),
                   ("usedUnits", .num 5), ("unitType", .str "SMS")]),
    ("voice", .obj [("startUnits", .num 60), ("remainingUnits", .num 40),
                    ("usedUnits", .num 20), ("unitType", .str "Minutes")])])]

/-- C3: the usage response for the mobile line. -/
def c3usageResp : Response :=
  ⟨200, "usage", c3usage,
   ocapiBase ++ "/public/api/mobile-service/v3/mobilesubscriptions/m1/usages", none⟩

/-- C3 state: the registered line, its type, and authenticated user
details. -/
def c3st : ClientState :=
  ⟨[c3spec, c3usageResp], none, none, [(some "m1", c3product)], [some "mobile"],
   .obj [("customer_number", .str "123"), ("first_name", .str "Jan"),
         ("identity_id", .str "id9")],
   [], [], .obj [], 0, "user@example.com", "pw", "nl", 1767225600⟩

/-- C4: transcript for a discovery pass whose active-products endpoint
returns HTTP 200 with an empty list. -/
def c4st : ClientState :=
  mkState [probeOk,
    ⟨200, "[]", .arr [], ocapiBase ++ "/public/api/product-service/v1/products?status=ACTIVE", none⟩,
    ⟨200, "[]", .arr [], ocapiBase ++ "/public/api/product-service/v1/product-subscriptions?producttypes=PLAN", none⟩]

/-- A 404 response with a JSON error body. -/
def resp404 : Response :=
  ⟨404, "\x7b\x22code\x22: \x22NOT_FOUND\x22\x7d", .obj [("code", .str "NOT_FOUND")],
   "https://api/u", none⟩

/-- C4: transcript for a discovery pass whose active-products endpoint soft
fails (404 sentinel). -/
def c4sentSt : ClientState := mkState [probeOk, resp404]

/-- C6: the 401 probe carrying the comma-separated state and nonce pair. -/
def c6probe : Response :=
  ⟨401, "st4t3,n0nc3", .obj [], ocapiBase ++ "/oauth/userdetails", none⟩

/-- C6: the authorize redirect landing on the login page. -/
def c6authorize : Response :=
  ⟨200, "form", .obj [], openidBase ++ "/login?client_id=ocapi", none⟩

/-- C6: the accepted credential POST (rotating the XSRF cookie). -/
def c6logindo : Response :=
  ⟨200, "ok", .obj [], openidBase ++ "/callback", some "tok1"⟩

/-- C6: user details without a `customer_number`. -/
def c6udMissing : Response :=
  ⟨200, "ud", .obj [("first_name", .str "Jan")],
   "https://api.prd.telenet.be/ocapi/oauth/userdetails", none⟩

/-- C6: user details carrying `customer_number`. -/
def c6ud : Json :=
  .obj [("customer_number", .str "123"), ("first_name", .str "Jan")]

/-- C6: the user-details response carrying `customer_number`. -/
def c6udPresent : Response :=
  ⟨200, "ud", c6ud, "https://api.prd.telenet.be/ocapi/oauth/userdetails", none⟩

/-- C6 state for the degraded-200 transcript. -/
def c6badSt : ClientState := mkState [c6probe, c6authorize, c6logindo, c6udMissing]

/-- C6 state for the successful transcript. -/
def c6goodSt : ClientState := mkState [c6probe, c6authorize, c6logindo, c6udPresent]

/-- C7: the internet product whose bill cycles will soft-fail. -/
def c7productA : TelenetProduct := {
  product_identifier := some "i1"
  product_type := some "internet"
  product_plan_identifier := some "i1"
  product_name := .str "i1"
  product_key := format_entity_name "i1 internet product"
  product_specurl := some "https://spec/i1" }

/-- C7: a second, unrelated product in the same pass. -/
def c7productB : TelenetProduct := {
  product_identifier := some "m1"
  product_type := some "mobile"
  product_plan_identifier := some "m1"
  product_name := .str "m1"
  product_key := format_entity_name "m1 mobile product"
  product_specurl := some "https://spec/m1" }

/-- C7: the spec sheet for the internet product. -/
def c7spec : Response :=
  ⟨200, "spec",
   .obj [("product", .obj [("localizedcontent",
     .arr [.obj [("locale", .str "nl"), ("name", .str "Internet product")]])])],
   "https://spec/i1", none⟩

/-- C7 state: two products; the transcript serves the first product's spec
sheet and then a 404 for its bill cycles. -/
def c7st : ClientState :=
  ⟨[c7spec, resp404], none, none,
   [(some "i1", c7productA), (some "m1", c7productB)],
   [some "internet", some "mobile"],
   .obj [("customer_number", .str "123")], [], [], .obj [], 0,
   "user@example.com", "pw", "nl", 0⟩

/-- C8: wireless settings without a network key. -/
def c8wsNoKey : Json :=
  .obj [("wirelessEnabled", .str "Yes"),
        ("singleSSIDRoamingSettings", .obj [("name", .str "MyWifi")])]

/-- C8: wireless settings with a network key containing colons. -/
def c8wsKey : Json :=
  .obj [("wirelessEnabled", .str "Yes"),
        ("singleSSIDRoamingSettings",
         .obj [("name", .str "MyWifi"), ("networkKey", .str "ab:cd:e")])]

/-- C8/C5 product fixture. -/
def c8prod : TelenetProduct := {
  product_identifier := some "i1"
  product_type := some "internet"
  product_plan_identifier := some "p1" }

/-- C5: a product dict whose identifier collides with `c8prod`. -/
def c5dup : Json :=
  .obj [("identifier", .str "i1"), ("productType", .str "internet"),
        ("label", .str "Internet Max"), ("specurl", .str "https://spec/other")]

/-- C5 state: `i1` is already registered. -/
def c5st : ClientState :=
  ⟨[], none, none, [(some "i1", c8prod)], [some "internet"], .obj [], [], [],
   .obj [], 0, "user@example.com", "pw", "nl", 0⟩

/-- C9: a real product with attached subscription info and the
`models.py` list default in `product_extra_attributes`. -/
def c9prod : TelenetProduct := {
  product_identifier := some "i1"
  product_type := some "internet"
  product_subscription_info := .obj [("identifier", .str "i1"),
    ("internetType", .str "FIBER"), ("status", .str "ACTIVE")] }

/-- C9 state. -/
def c9st : ClientState :=
  ⟨[], none, none, [(some "i1", c9prod)], [], .obj [], [], [], .obj [], 0,
   "user@example.com", "pw", "nl", 0⟩

/-- C10: two 404 responses for the same address id. -/
def c10st : ClientState := mkState [resp404, resp404]

/-- C10: a state carrying one cached address. -/
def c10cachedSt : ClientState :=
  ⟨[], none, none, [], [], .obj [], [],
   [("a1", .obj [("street", .str "Main")])], .obj [], 0,
   "user@example.com", "pw", "nl", 0⟩

/-! ### Claim theorems -/

/-- The monad's bind is `bindM` (for unfolding `do` blocks in proofs). -/
theorem bind_eq_bindM {α β : Type} (x : M α) (f : α → M β) :
    x >>= f = bindM x f := rfl

/-- The monad's pure is `pureM`. -/
theorem pure_eq_pureM {α : Type} (a : α) : (pure a : M α) = pureM a := rfl

/-- Sequencing a computation with the trailing header mirror of `request`
is `mirrorPost` of its outcome (the mirror-and-return tail of the retry
path). -/
theorem bindM_mirror (x : M PyVal) (st : ClientState) :
    bindM x (fun r => bindM (modifyM fun s => { s with headerXsrf := s.cookieXsrf })
      (fun _ => pureM r)) st = mirrorPost (x st) := by
  unfold bindM mirrorPost modifyM pureM
  rcases x st with e | ⟨a, st2⟩
  · rfl
  · rfl

/-- C5: registering a product whose identifier already exists in the
in-memory product table is a no-op: `add_product` returns `False` and the
entire client state — the product count and every field of the
first-registered record included — is unchanged. -/
theorem add_product_duplicate_noop (fuel : Nat) (product : Json)
    (plan_identifier : Option String) (state_prop : String) (plan_label : Json)
    (st : ClientState)
    (h : listHasKey st.all_products (asStrOpt (jget product "identifier")) = true) :
    add_product fuel product plan_identifier state_prop plan_label st =
      .ok (false, st) := by
  unfold add_product
  simp [bindM, pureM, getM, Bind.bind, Pure.pure, h]

/-- C5 witness: a concrete duplicate registration (identifier `i1` is
already in the table of `c5st`) evaluates to the no-op. -/
theorem add_product_duplicate_noop_witness :
    listHasKey c5st.all_products (asStrOpt (jget c5dup "identifier")) = true ∧
    add_product 5 c5dup (some "p1") "label" (.str "Internet Max") c5st =
      .ok (false, c5st) :=
  ⟨rfl, add_product_duplicate_noop 5 c5dup (some "p1") "label"
    (.str "Internet Max") c5st rfl⟩

/-- C9 (code bug): attribute projection reaches the merge
`product.product_extra_attributes |= extra_attributes` (client.py line
1001) with the left operand still being the `list` default that `models.py`
line 34 declares (`field(default_factory=list)`); for every real product
the merge therefore raises `TypeError` instead of merging the whitelisted
keys into the attribute map as the claim (and the spec's "extra-attributes
mapping") describes.  Here: one real internet product with attached
subscription info whose projection crashes the whole pass. -/
theorem set_extra_attributes_list_default_type_error :
    set_extra_attributes c9st =
      .error (.typeError "unsupported operand types for ior: list and dict") := by
  rfl

/-- C7 (code bug): `bill_cycles` is the one optional per-product fetch in
derived-sensor synthesis whose soft failure is not checked (client.py 385,
unlike the `product_usage` / `modems` / `device_details` / mobile-usage
fetches): a 404 makes `bill_cycles` return the `False` sentinel and the
immediate `billcycle.get("start_date")` raises `AttributeError`, aborting
the entire pass — the second product of this fixture loses its derived
sensors too, instead of only the failing product being skipped. -/
theorem create_extra_sensors_billcycle_404_aborts_pass :
    create_extra_sensors 20 c7st =
      .error (.attributeError "bool object has no attribute get") := by
  rfl

/-- C3 (code bug): on a standalone mobile line with non-zero SMS and voice
buckets, the voice sensor is constructed with the suffix `"sms"`
(client.py line 911, where the bundle branch uses `"voice"`), so its
generated key equals the SMS sensor's key and its record overwrites the SMS
sensor inside `new_products`: the final table holds exactly one
`m1_mobile_sms` key, and the record stored there is the voice sensor
(description key `mobile_voice`, duration-formatted state) — the generated
keys are not pairwise distinct and the SMS sensor is lost. -/
theorem create_extra_sensors_sms_voice_key_collision :
    (create_extra_sensors 20 c3st).toOption.map (fun r =>
      (r.2.all_products.map Prod.fst,
       (listGet r.2.all_products (some "m1_mobile_sms")).map (fun p =>
         (p.product_description_key, p.product_state)))) =
    some ([some "m1", some "m1_mobile_out_of_bundle", some "m1_mobile_sms",
           some "123_current_invoice", some "123_user_details"],
          some (some "mobile_voice", .str "0h 20m")) := by
  rfl

/-- C1 (code bug): the retry budget is decremented but never consulted on
the 401/403/500 path, so retries are not bounded by it.  First conjunct:
for EVERY remaining budget `b` — exhausted and negative values included —
and any `retrying` flag, a 500 response makes the dispatcher re-login (here
through a successful probe) and re-issue the request with budget `b - 1`,
rather than surfacing the HTTP error; the recursion is limited only by the
transcript/fuel, never by `connection_retry_left` (`request` starts this
recursion at `CONNECTION_RETRY`).  Second conjunct: concretely, even at
budget -2 — long past the exhausted budget — a 500 is still retried and the
follow-up success is returned. -/
theorem request_unbounded_retry_on_500 (f : Nat) (b : Int) (l rtr : Bool)
    (rest : List Response) :
    (dispatch (f + 4) (.req (some "https://api/u") "[caller]" none (some 200) l rtr b)
        (mkState (resp500 :: probeOk :: rest)) =
      mirrorPost (dispatch (f + 3)
        (.req (some "https://api/u") "[caller]" none (some 200) l true (b - 1))
        (mkState rest))) ∧
    (dispatch 10 (.req (some "https://api/u") "[caller]" none (some 200) false true (-2))
        (mkState [resp500, probeOk, respOk]) =
      .ok (.resp respOk, mkState [])) := by
  refine ⟨?_, rfl⟩
  show bindM (dispatch (f + 3)
      (.req (some "https://api/u") "[caller]" none (some 200) l true (b - 1)))
    (fun r => bindM (modifyM fun s => { s with headerXsrf := s.cookieXsrf })
      (fun _ => pureM r)) (mkState rest) = _
  exact bindM_mirror _ _

/-- C10 counterexample: a soft-failing address lookup is not cached, so a
second call for the same address id issues a second HTTP request — the
transcript of two 404 responses is fully consumed and both calls return the
sentinel — refuting "at most one fetch is ever performed per distinct
address id". -/
theorem address_failed_lookup_refetches :
    (address 5 (some "a1") >>= fun r1 =>
     address 5 (some "a1") >>= fun r2 => pure (r1, r2)) c10st =
      .ok ((none, none),
        { c10st with transcript := [], request_error := resp404.json }) := by
  rfl

/-- C10 amended: a `None` or empty address id yields an empty mapping with
no HTTP request and no state change; an address id cached with a non-`None`
record is served from the cache with no HTTP request and no state change —
so at most one successful fetch happens per distinct address id (a
soft-failed lookup, however, is not cached and may be fetched again). -/
theorem address_cache_and_empty_id (fuel : Nat) (st : ClientState) :
    (address fuel none st = .ok (some (.obj []), st)) ∧
    (∀ aid : String, aid.length = 0 →
      address fuel (some aid) st = .ok (some (.obj []), st)) ∧
    (∀ (aid : String) (j : Json), aid.length ≠ 0 →
      listGet st.addresses aid = some j → isNull j = false →
      address fuel (some aid) st = .ok (some j, st)) := by
  refine ⟨rfl, ?_, ?_⟩
  · intro aid h
    simp [address, h]
    rfl
  · intro aid j hlen h hj
    cases j <;>
      simp_all [address, bind_eq_bindM, pure_eq_pureM, bindM, pureM, getM, isNull]

/-- C10 amended witness: the three arms at concrete inputs — `None`, the
empty string, and the cached id `a1` of `c10cachedSt`. -/
theorem address_cache_and_empty_id_witness :
    (address 5 none c10cachedSt = .ok (some (.obj []), c10cachedSt)) ∧
    (address 5 (some "") c10cachedSt = .ok (some (.obj []), c10cachedSt)) ∧
    (address 5 (some "a1") c10cachedSt =
      .ok (some (.obj [("street", .str "Main")]), c10cachedSt)) :=
  ⟨(address_cache_and_empty_id 5 c10cachedSt).1,
   (address_cache_and_empty_id 5 c10cachedSt).2.1 "" rfl,
   (address_cache_and_empty_id 5 c10cachedSt).2.2 "a1"
     (.obj [("street", .str "Main")]) (by decide) rfl rfl⟩

/-- C4 counterexample: an active-products response that is HTTP 200 with an
empty product list — the endpoint literally yielding zero products — does
NOT raise: the discovery pass completes normally and returns only the two
synthetic account-level sensors, a silently (near-)empty result instead of
the fatal service error the claim requires. -/
theorem products_empty_list_does_not_raise :
    (products 20 false c4st).toOption.map (fun r =>
      (r.1.map (fun p => p.product_key), r.2.all_products.map Prod.fst)) =
    some (["none_current_invoice", "none_user_details"],
          [some "none_current_invoice", some "none_user_details"]) := by
  rfl

/-- C4 amended: what the code actually treats as the "zero products"
condition is the soft-failure sentinel: when the active-products request
soft-fails (HTTP 404 here), `products` raises the fatal
"not migrated / API down" `TelenetServiceException` — never a soft failure. -/
theorem products_sentinel_raises :
    products 20 false c4sentSt = .error (.telenetService
      "No products found. Either the API is currently down or you are not migrated to the new Telenet IT system yet.") := by
  rfl

/-- C6: after the credential POST succeeds, `login` re-fetches the user
details; a nominally successful 200 body lacking `customer_number` raises
`BadCredentialsException`, while a body carrying it is persisted into
`user_details` (with the rotated XSRF token mirrored) and returned. -/
theorem login_customer_number_check :
    login 20 c6badSt = .error (.badCredentials "HTTP 200 Missing customer number") ∧
    login 20 c6goodSt = .ok (c6ud,
      ⟨[], some "tok1", some "tok1", [], [], c6ud, [], [], .obj [], 0,
       "user@example.com", "pw", "nl", 0⟩) := by
  exact ⟨rfl, rfl⟩

/-- C2 counterexample: a 403 response carrying the known benign code
OCAPI-ERR-667 makes `request` raise a `TelenetServiceException` built from
the body's `cause` and the username — it is not "tolerated and routed to
the re-auth/retry path" as the claim states (no login happens and no
further transcript element is consumed). -/
theorem request_403_benign_code_raises :
    request 5 (some "https://api/x") "[caller]" none (some 200) c2st =
      .error (.telenetService "Access Forbidden for user@example.com") := by
  rfl

/-- C2 amended: for a 403 response whose status differs from the expected
one, `request` behaves in exactly three ways — a body text mentioning an
error code equal to OCAPI-ERR-667 raises a `TelenetServiceException` built
from the body's `cause` (a hard failure, not a retry); any other error code
is returned as the soft-failure sentinel with the body captured in
`request_error` (the caller degrades); and a body with no error code at all
is escalated to the re-auth/retry path (third conjunct: concretely, a
no-code 403 is followed by a re-login probe and a successful retry whose
response is returned). -/
theorem request_403_amended (fuel expected : Nat) (u caller text url2 : String)
    (body : Json) (ck : Option String) (rest : List Response) (st : ClientState)
    (hne : expected ≠ 403)
    (htr : st.transcript = Response.mk 403 text body url2 ck :: rest) :
    (strContains text "code" = true → isErr667 body = true →
      request (fuel + 4) (some u) caller none (some expected) st =
        .error (.telenetService
          (pyOptFmt (jget body "cause") ++ " for " ++ st.username))) ∧
    (strContains text "code" = true → isErr667 body = false →
      request (fuel + 4) (some u) caller none (some expected) st =
        .ok (.fal, { st with transcript := rest,
                             cookieXsrf := ck <|> st.cookieXsrf,
                             request_error := body })) ∧
    (request 9 (some "https://api/x") "[caller]" none (some 200) c2noCodeSt =
      .ok (.resp respOk, mkState [])) := by
  obtain ⟨tr, hx, cx, ap, pt, ud, pp, ad, re, tc, un, pw, lg, nw⟩ := st
  simp only at htr
  subst htr
  have h43 : (403 : Nat) ≠ expected := fun h => hne h.symm
  refine ⟨?_, ?_, rfl⟩
  · intro hc h667
    simp [request, dispatch, bind_eq_bindM, pure_eq_pureM, bindM, pureM,
      getM, setM, modifyM, throwM, h43, hc, h667]
  · intro hc h667
    simp [request, dispatch, bind_eq_bindM, pure_eq_pureM, bindM, pureM,
      getM, setM, modifyM, throwM, h43, hc, h667]

/-- C2 amended witness: the raising arm at the OCAPI-ERR-667 fixture and
the sentinel arm at a 403 with a different code. -/
theorem request_403_amended_witness :
    (request 9 (some "https://api/x") "[caller]" none (some 200) c2st =
      .error (.telenetService "Access Forbidden for user@example.com")) ∧
    (request 9 (some "https://api/x") "[caller]" none (some 200)
        (mkState [⟨403, "\x7b\x22code\x22: \x22OTHER\x22\x7d",
          .obj [("code", .str "OTHER")], "https://api/x", none⟩]) =
      .ok (.fal, { mkState [] with request_error := .obj [("code", .str "OTHER")] })) := by
  constructor
  · exact (request_403_amended 5 200 "https://api/x" "[caller]"
      "\x7b\x22code\x22: \x22OCAPI-ERR-667\x22, \x22cause\x22: \x22Access Forbidden\x22\x7d"
      c2resp.url c2resp.json none [] c2st (by decide) rfl).1 rfl rfl
  · exact (request_403_amended 5 200 "https://api/x" "[caller]"
      "\x7b\x22code\x22: \x22OTHER\x22\x7d" "https://api/x"
      (.obj [("code", .str "OTHER")]) none []
      (mkState [⟨403, "\x7b\x22code\x22: \x22OTHER\x22\x7d",
        .obj [("code", .str "OTHER")], "https://api/x", none⟩])
      (by decide) rfl).2.1 rfl rfl

/-- Single-colon replacement equals the flat-map form: every colon and only
colons are doubled into a backslash-colon pair. -/
theorem pyReplaceAux_colon (fuel : Nat) (l : List Char) (h : l.length < fuel) :
    pyReplaceAux [':'] ['\\', ':'] fuel l =
      l.flatMap (fun c => if c = ':' then ['\\', ':'] else [c]) := by
  induction fuel generalizing l with
  | zero => omega
  | succ n ih =>
    cases l with
    | nil => simp [pyReplaceAux]
    | cons c cs =>
      by_cases hc : c = ':'
      · subst hc
        simp only [pyReplaceAux, List.isPrefixOf, List.flatMap_cons]
        simp [ih cs (by simpa using h)]
      · simp only [pyReplaceAux, List.isPrefixOf, List.flatMap_cons]
        simp [hc, Ne.symm hc, ih cs (by simp at h; omega)]

/-- `s.replace(":", "\\:")` escapes exactly the colons. -/
theorem pyReplace_colon (s : String) : pyReplace s ":" "\\:" = colonEscaped s := by
  unfold pyReplace colonEscaped
  rw [pyReplaceAux_colon (s.data.length + 1) s.data (by omega)]

/-- C8: for a wireless-settings record whose `singleSSIDRoamingSettings`
block is present, the Wi-Fi block of internet derived-sensor synthesis
produces no QR sensor when the block has no `networkKey`, and with a string
network key produces exactly one additional `wi-fi qr` sensor whose state
is the `WIFI:S:<ssid>;T:WPA;P:<key>;;` string in which every colon of the
key — and nothing else — has been escaped to a backslash-colon pair. -/
theorem wifi_qr_escaping (product : TelenetProduct) (kvs blk : List (String × Json))
    (hblk : listGet kvs "singleSSIDRoamingSettings" = some (.obj blk)) :
    (listGet blk "networkKey" = none →
      ∃ w, wifiSensorBlock product (.obj kvs) = .ok [w] ∧
        w.2.product_description_key = some "wifi") ∧
    (∀ k : String, listGet blk "networkKey" = some (.str k) →
      ∃ w q, wifiSensorBlock product (.obj kvs) = .ok [w, q] ∧
        w.2.product_description_key = some "wifi" ∧
        q.2.product_description_key = some "qr" ∧
        q.1 = some (format_entity_name (pyOptStr product.product_identifier ++ " " ++
          pyOptStr product.product_type ++ " " ++ "wi-fi qr")) ∧
        q.2.product_state = .str ("WIFI:S:" ++ pyOptFmt (listGet blk "name") ++
          ";T:WPA;P:" ++ colonEscaped k ++ ";;")) := by
  constructor
  · intro hnone
    have hres : wifiSensorBlock product (.obj kvs) =
        .ok [construct_extra_sensor product "wi-fi" "wifi"
          ((listGet kvs "wirelessEnabled").getD .null) kvs false .null] := by
      simp [wifiSensorBlock, create_extra_attributes_list, pyGet, pyMember,
        listHasKey, hblk, hnone, bind, Except.bind, pure, Except.pure]
    exact ⟨_, hres, rfl⟩
  · intro k hk
    have hres : wifiSensorBlock product (.obj kvs) =
        .ok [construct_extra_sensor product "wi-fi" "wifi"
              ((listGet kvs "wirelessEnabled").getD .null) kvs false .null,
             construct_extra_sensor product "wi-fi qr" "qr"
              (.str ("WIFI:S:" ++ pyFmt ((listGet blk "name").getD .null) ++
                ";T:WPA;P:" ++ pyReplace k ":" "\\:" ++ ";;")) [] false .null] := by
      simp [wifiSensorBlock, create_extra_attributes_list, pyGet, pyMember,
        listHasKey, hblk, hk, bind, Except.bind, pure, Except.pure]
    refine ⟨_, _, hres, rfl, rfl, rfl, ?_⟩
    rw [show (construct_extra_sensor product "wi-fi qr" "qr"
        (.str ("WIFI:S:" ++ pyFmt ((listGet blk "name").getD .null) ++
          ";T:WPA;P:" ++ pyReplace k ":" "\\:" ++ ";;")) [] false
        .null).2.product_state =
      .str ("WIFI:S:" ++ pyFmt ((listGet blk "name").getD .null) ++
        ";T:WPA;P:" ++ pyReplace k ":" "\\:" ++ ";;") from rfl]
    rw [pyReplace_colon]
    cases h : listGet blk "name" <;> simp [pyOptFmt, pyFmt]

/-- C8 witness: the two arms at concrete wireless settings — no network
key, and the key `ab:cd:e` whose colons are escaped in the QR state. -/
theorem wifi_qr_escaping_witness :
    (∃ w, wifiSensorBlock c8prod c8wsNoKey = .ok [w] ∧
      w.2.product_description_key = some "wifi") ∧
    (∃ w q, wifiSensorBlock c8prod c8wsKey = .ok [w, q] ∧
      w.2.product_description_key = some "wifi" ∧
      q.2.product_description_key = some "qr" ∧
      q.1 = some (format_entity_name (pyOptStr c8prod.product_identifier ++ " " ++
        pyOptStr c8prod.product_type ++ " " ++ "wi-fi qr")) ∧
      q.2.product_state = .str ("WIFI:S:" ++
        pyOptFmt (listGet [("name", Json.str "MyWifi"),
          ("networkKey", Json.str "ab:cd:e")] "name") ++
        ";T:WPA;P:" ++ colonEscaped "ab:cd:e" ++ ";;")) :=
  ⟨(wifi_qr_escaping c8prod
      [("wirelessEnabled", .str "Yes"),
       ("singleSSIDRoamingSettings", .obj [("name", .str "MyWifi")])]
      [("name", .str "MyWifi")] rfl).1 rfl,
   (wifi_qr_escaping c8prod
      [("wirelessEnabled", .str "Yes"),
       ("singleSSIDRoamingSettings",
        .obj [("name", .str "MyWifi"), ("networkKey", .str "ab:cd:e")])]
      [("name", .str "MyWifi"), ("networkKey", .str "ab:cd:e")] rfl).2 "ab:cd:e" rfl⟩

end Telenet

